import Mathlib

/-!
# Badge registration page (`src/app/register/page.js`)

A shallow embedding of the client-side registration pipeline of the
`RegisterPage` component: the authorization gate, `loadMyRegistrations`,
`submit`, `openEdit`, `saveEdit` and `deleteEntry`.

* The React state of the component is one record, `PageState`; every
  `useState` cell is a field with the source's name.
* Every operation is a function from the state it runs on (and the answers
  the outside world gives to its awaited calls) to the resulting state and
  the ordered list of calls it issued (`Call`).
* JavaScript strings are `String`; `trim` is `jsTrim`; an object that may be
  `null`/`undefined` is an `Option`.
-/

namespace BadgeRegistration

/-! ## JavaScript primitives used by the page -/

/-- The code points `String.prototype.trim` strips: ECMAScript `WhiteSpace`
(TAB, VT, FF, SP, NBSP, ZWNBSP and category Zs) and `LineTerminator`
(LF, CR, LS, PS). -/
def isJsWhiteSpace (c : Char) : Bool :=
  let n := c.toNat
  n == 0x09 || n == 0x0A || n == 0x0B || n == 0x0C || n == 0x0D || n == 0x20 ||
  n == 0xA0 || n == 0x1680 || (0x2000 ≤ n && n ≤ 0x200A) || n == 0x2028 ||
  n == 0x2029 || n == 0x202F || n == 0x205F || n == 0x3000 || n == 0xFEFF

/-- Characters of `s.trim()`: leading and trailing white space removed. -/
def jsTrimChars (cs : List Char) : List Char :=
  ((cs.dropWhile isJsWhiteSpace).reverse.dropWhile isJsWhiteSpace).reverse

/-- The JavaScript `s.trim()`. -/
def jsTrim (s : String) : String :=
  String.mk (jsTrimChars s.data)

/-- The JavaScript `s.slice(2)`: `s` without its first two code units. -/
def jsSlice2 (s : String) : String :=
  String.mk (s.data.drop 2)

/-- Truthiness of a value that is `null`/`undefined` or a string: only a
non-empty string is truthy. -/
def truthyStr : Option String → Bool
  | none => false
  | some s => s != ""

/-- A scalar JSON value, as found in a row id or on the right of `.eq(...)`. -/
inductive Scalar where
  | str (s : String)
  | num (n : Int)
  | bool (b : Bool)
deriving DecidableEq, Repr

/-- JavaScript truthiness of a scalar. -/
def Scalar.truthy : Scalar → Bool
  | .str s => s != ""
  | .num n => n != 0
  | .bool b => b

/-! ## Data model -/

/-- The `error` member of a Supabase response. -/
structure RemoteError where
  message : String
deriving DecidableEq, Repr

/-- An encoded image as produced by `canvas.toBlob`. -/
structure Blob where
  type : String
  bytes : List Nat
deriving DecidableEq, Repr

/-- The `crop` cell of the cropper: `{ x, y }`. -/
structure CropPoint where
  x : Rat
  y : Rat
deriving DecidableEq, Repr

/-- The `croppedAreaPixels` rectangle reported by the cropper. -/
structure CropArea where
  x : Int
  y : Int
  width : Nat
  height : Nat
deriving DecidableEq, Repr

/-- A row of `registrations` as selected by `loadMyRegistrations`
(`id, created_at, full_name, country, photo_path`). -/
structure RegistrationRow where
  id : Scalar
  created_at : String
  full_name : Option String
  country : Option String
  photo_path : Option String
deriving DecidableEq, Repr

/-- A list item: `{ ...r, photo_url }`. -/
structure ListItem where
  row : RegistrationRow
  photo_url : Option String
deriving DecidableEq, Repr

/-- A row of `allowed_users` as selected by the gate (`email, active, country`). -/
structure AllowedRow where
  email : String
  active : Bool
  country : Option String
deriving DecidableEq, Repr

/-- The `useState` cells of `RegisterPage`. -/
structure PageState where
  sessionEmail : String
  msg : String
  successOpen : Bool
  successText : String
  fullName : String
  country : String
  photoPreview : Option String
  photoBlob : Option Blob
  cropOpen : Bool
  rawImageSrc : Option String
  crop : CropPoint
  zoom : Rat
  croppedAreaPixels : Option CropArea
  items : List ListItem
  loadingList : Bool
  editOpen : Bool
  editId : Option Scalar
  editName : String
  editCountry : String
  editSaving : Bool
deriving DecidableEq, Repr

/-- The state of a freshly mounted page: the initial value of every
`useState` cell. -/
def PageState.initial : PageState where
  sessionEmail := ""
  msg := ""
  successOpen := false
  successText := ""
  fullName := ""
  country := ""
  photoPreview := none
  photoBlob := none
  cropOpen := false
  rawImageSrc := none
  crop := ⟨0, 0⟩
  zoom := 1
  croppedAreaPixels := none
  items := []
  loadingList := false
  editOpen := false
  editId := none
  editName := ""
  editCountry := ""
  editSaving := false

/-! ## Calls the page issues -/

/-- One `.eq(column, value)` of a query. -/
structure EqFilter where
  column : String
  value : Scalar
deriving DecidableEq, Repr

/-- The calls the page makes on its collaborators, with their arguments. -/
inductive Call where
  /-- `supabase.auth.getSession()` -/
  | authGetSession
  /-- `supabase.auth.signOut()` -/
  | authSignOut
  /-- `router.push(path)` -/
  | routerPush (path : String)
  /-- `supabase.from(table).select(columns).eq(..)...`, with the optional
  `.order(column, { ascending })`, `.limit(n)` and `.maybeSingle()` -/
  | dbSelect (table columns : String) (filters : List EqFilter)
      (order : Option (String × Bool)) (limit : Option Nat) (maybeSingle : Bool)
  /-- `supabase.from(table).insert(row)`, the row as its list of members -/
  | dbInsert (table : String) (row : List (String × String))
  /-- `supabase.from(table).update(payload).eq(..)` -/
  | dbUpdate (table : String) (payload : List (String × String)) (filters : List EqFilter)
  /-- `supabase.from(table).delete().eq(..)` -/
  | dbDelete (table : String) (filters : List EqFilter)
  /-- `supabase.storage.from(bucket).upload(path, blob, { contentType, upsert })` -/
  | storageUpload (bucket path : String) (blob : Blob) (contentType : String) (upsert : Bool)
  /-- `supabase.storage.from(bucket).createSignedUrl(path, seconds)` -/
  | storageCreateSignedUrl (bucket path : String) (seconds : Nat)
  /-- `supabase.storage.from(bucket).remove(paths)` -/
  | storageRemove (bucket : String) (paths : List String)
  /-- `window.confirm(text)` -/
  | windowConfirm (text : String)
  /-- `setTimeout(.., ms)` -/
  | setTimeout (ms : Nat)
deriving DecidableEq, Repr

/-- A call that reaches a remote service (identity, persistence or storage). -/
def Call.isRemote : Call → Bool
  | .authGetSession => true
  | .authSignOut => true
  | .dbSelect .. => true
  | .dbInsert .. => true
  | .dbUpdate .. => true
  | .dbDelete .. => true
  | .storageUpload .. => true
  | .storageCreateSignedUrl .. => true
  | .storageRemove .. => true
  | .routerPush _ => false
  | .windowConfirm _ => false
  | .setTimeout _ => false

/-- A storage upload. -/
def Call.isUpload : Call → Bool
  | .storageUpload .. => true
  | _ => false

/-- An insert into a table. -/
def Call.isInsert : Call → Bool
  | .dbInsert .. => true
  | _ => false

/-- A storage removal. -/
def Call.isStorageRemove : Call → Bool
  | .storageRemove .. => true
  | _ => false

/-- A select on the `registrations` table: the base query of a List Sync. -/
def Call.isListSelect : Call → Bool
  | .dbSelect table _ _ _ _ _ => table == "registrations"
  | _ => false

/-- The `.eq` filters of a list, update or delete request on the
`registrations` table; `none` for every other call. -/
def Call.registrationFilters : Call → Option (List EqFilter)
  | .dbSelect table _ filters _ _ _ => if table = "registrations" then some filters else none
  | .dbUpdate table _ filters => if table = "registrations" then some filters else none
  | .dbDelete table filters => if table = "registrations" then some filters else none
  | _ => none

/-! ## Answers of the collaborators -/

/-- `{ data, error }` of the base query of `loadMyRegistrations`. -/
structure SelectResponse where
  data : Option (List RegistrationRow)
  error : Option RemoteError

/-- `{ data: signed, error: signErr }` of `createSignedUrl`; `data` is
`signed?.signedUrl`. -/
structure SignResponse where
  data : Option String
  error : Option RemoteError

/-- What the outside world answers during one `loadMyRegistrations`:
the base query, and the signing request of the row at a given position
for a given path. -/
structure ListEnv where
  select : SelectResponse
  sign : Nat → String → SignResponse

/-- `{ data: allowed, error }` of the allow-list lookup. -/
structure AllowedResponse where
  data : Option AllowedRow
  error : Option RemoteError

/-- What the outside world answers during one run of the gate effect:
`data?.session?.user?.email`, the allow-list lookup, and the List Sync. -/
structure GateEnv where
  sessionUserEmail : Option String
  allowed : AllowedResponse
  list : ListEnv

/-- What the outside world answers during one `submit`: `Date.now()`,
`Math.random().toString(16)`, the `error` of the upload, the `error` of the
insert, and the List Sync. -/
structure SubmitEnv where
  now : Nat
  randomBase16 : String
  uploadErr : Option RemoteError
  insertErr : Option RemoteError
  list : ListEnv

/-- What the outside world answers during one `saveEdit`. -/
structure EditEnv where
  error : Option RemoteError
  list : ListEnv

/-- What the outside world answers during one `deleteEntry`: the user's
answer to `window.confirm`, the `error` of the row delete, the (ignored)
`error` of the storage removal, and the List Sync. -/
structure DeleteEnv where
  ok : Bool
  error : Option RemoteError
  removeErr : Option RemoteError
  list : ListEnv

/-! ## `loadMyRegistrations` -/

/-- The body of the `map` callback of `loadMyRegistrations` for the row at
position `i`: the item it resolves to and the call it issues. -/
def signRow (env : ListEnv) (i : Nat) (r : RegistrationRow) : ListItem × List Call :=
  match r.photo_path with
  | none => (⟨r, none⟩, [])
  | some p =>
    if p = "" then (⟨r, none⟩, [])
    else
      let resp := env.sign i p
      (⟨r, if resp.error.isSome then none else resp.data⟩,
        [Call.storageCreateSignedUrl "photos" p (60 * 60)])

/-- The `Promise.all(rows.map(..))` of `loadMyRegistrations`, rows numbered
from `i`: the items in row order and the signing calls in row order. -/
def signAll (env : ListEnv) : Nat → List RegistrationRow → List ListItem × List Call
  | _, [] => ([], [])
  | i, r :: rs =>
    ((signRow env i r).1 :: (signAll env (i + 1) rs).1,
      (signRow env i r).2 ++ (signAll env (i + 1) rs).2)

/-- The base query of `loadMyRegistrations(email)`. -/
def listQuery (email : String) : Call :=
  Call.dbSelect "registrations" "id, created_at, full_name, country, photo_path"
    [⟨"registered_by_email", .str email⟩] (some ("created_at", false)) (some 200) false

/-- The function `loadMyRegistrations(email)`. -/
def loadMyRegistrations (env : ListEnv) (email : String) (s : PageState) :
    PageState × List Call :=
  let s1 := { s with loadingList := true }
  match env.select.error with
  | some error => ({ s1 with msg := error.message, loadingList := false }, [listQuery email])
  | none =>
    let withUrls := signAll env 0 (env.select.data.getD [])
    ({ s1 with items := withUrls.1, loadingList := false }, listQuery email :: withUrls.2)

/-! ## The authorization gate (the `useEffect` of `RegisterPage`) -/

/-- The allow-list lookup of the gate for `email`. -/
def allowedQuery (email : String) : Call :=
  Call.dbSelect "allowed_users" "email, active, country"
    [⟨"email", .str email⟩, ⟨"active", .bool true⟩] none none true

/-- The gate effect. `toLowerCase` is the runtime's
`String.prototype.toLowerCase`; `country` is the value of the `country` cell
captured by the effect's closure (the effect does not depend on `country`,
so it is the value of the render that created the effect); `s` is the state
the effect's setters act on. -/
def gateEffect (toLowerCase : String → String) (env : GateEnv) (country : String)
    (s : PageState) : PageState × List Call :=
  match env.sessionUserEmail.map toLowerCase with
  | none => (s, [Call.authGetSession, Call.routerPush "/login"])
  | some email =>
    if email = "" then (s, [Call.authGetSession, Call.routerPush "/login"])
    else
      match env.allowed.error with
      | some error =>
        ({ s with msg := error.message }, [Call.authGetSession, allowedQuery email])
      | none =>
        match env.allowed.data with
        | none =>
          (s, [Call.authGetSession, allowedQuery email, Call.authSignOut,
            Call.routerPush "/login"])
        | some allowed =>
          let s1 := { s with sessionEmail := email }
          let s2 :=
            if truthyStr allowed.country ∧ jsTrim country = "" then
              { s1 with country := allowed.country.getD "" }
            else s1
          let r := loadMyRegistrations env.list email s2
          (r.1, [Call.authGetSession, allowedQuery email] ++ r.2)

/-- The allow-list service answering the gate's lookup from the contents of
`allowed_users`: the rows matching `.eq("email", email).eq("active", true)`,
reduced by `.maybeSingle()` (no row: `null`; one row: that row; several:
an error). `failure` is an error of the request itself. -/
def allowedLookup (table : List AllowedRow) (failure : Option RemoteError)
    (email : String) : AllowedResponse :=
  match failure with
  | some e => ⟨none, some e⟩
  | none =>
    match table.filter (fun r => r.email = email ∧ r.active = true) with
    | [] => ⟨none, none⟩
    | [r] => ⟨some r, none⟩
    | _ :: _ :: _ => ⟨none, some ⟨"JSON object requested, multiple (or no) rows returned"⟩⟩

/-! ## `submit` -/

/-- The constant `fileName` of `submit`. -/
def fileName (now : Nat) (randomBase16 : String) : String :=
  toString now ++ "-" ++ jsSlice2 randomBase16 ++ ".jpg"

/-- The constant `filePath` of `submit`. -/
def filePath (sessionEmail : String) (now : Nat) (randomBase16 : String) : String :=
  sessionEmail ++ "/" ++ fileName now randomBase16

/-- The upload `submit` issues for `blob` under `path`. -/
def uploadCall (path : String) (blob : Blob) : Call :=
  Call.storageUpload "photos" path blob "image/jpeg" false

/-- The insert `submit` issues. -/
def insertCall (sessionEmail fullName country path : String) : Call :=
  Call.dbInsert "registrations"
    [("registered_by_email", sessionEmail), ("full_name", jsTrim fullName),
      ("country", jsTrim country), ("photo_path", path)]

/-- The function `submit()`, run on state `s`. -/
def submit (env : SubmitEnv) (s : PageState) : PageState × List Call :=
  let s0 := { s with msg := "" }
  if s.sessionEmail = "" then ({ s0 with msg := "Not logged in." }, [])
  else if jsTrim s.fullName = "" then ({ s0 with msg := "Enter NAME SURNAME." }, [])
  else if jsTrim s.country = "" then ({ s0 with msg := "Enter COUNTRY." }, [])
  else
    match s.photoBlob with
    | none => ({ s0 with msg := "Upload and crop a photo." }, [])
    | some photoBlob =>
      let path := filePath s.sessionEmail env.now env.randomBase16
      match env.uploadErr with
      | some uploadErr => ({ s0 with msg := uploadErr.message }, [uploadCall path photoBlob])
      | none =>
        let ins := insertCall s.sessionEmail s.fullName s.country path
        match env.insertErr with
        | some insertErr =>
          ({ s0 with msg := insertErr.message }, [uploadCall path photoBlob, ins])
        | none =>
          let s1 := { s0 with fullName := "", photoPreview := none, photoBlob := none }
          let r := loadMyRegistrations env.list s.sessionEmail s1
          ({ r.1 with successText := "Registration saved.", successOpen := true },
            [uploadCall path photoBlob, ins] ++ r.2 ++ [Call.setTimeout 2000])

/-- The callback of the `setTimeout` of `submit`, and the acknowledgment
buttons of the success popup: `setSuccessOpen(false)`. -/
def closeSuccess (s : PageState) : PageState :=
  { s with successOpen := false }

/-! ## Edit and delete -/

/-- The function `openEdit(r)`. -/
def openEdit (r : ListItem) (s : PageState) : PageState :=
  { s with
    editId := some r.row.id
    editName := r.row.full_name.getD ""
    editCountry := r.row.country.getD ""
    editOpen := true }

/-- The update `saveEdit` issues for the row `editId`. -/
def updateCall (editId : Scalar) (editName editCountry : String) : Call :=
  Call.dbUpdate "registrations"
    [("full_name", jsTrim editName), ("country", jsTrim editCountry)] [⟨"id", editId⟩]

/-- The function `saveEdit()`, run on state `s`. -/
def saveEdit (env : EditEnv) (s : PageState) : PageState × List Call :=
  match s.editId with
  | none => (s, [])
  | some editId =>
    if editId.truthy = false then (s, [])
    else
      let s1 := { s with msg := "", editSaving := true }
      let s2 := { s1 with editSaving := false }
      match env.error with
      | some error =>
        ({ s2 with msg := error.message }, [updateCall editId s.editName s.editCountry])
      | none =>
        let r := loadMyRegistrations env.list s.sessionEmail { s2 with editOpen := false }
        (r.1, updateCall editId s.editName s.editCountry :: r.2)

/-- The delete `deleteEntry` issues for the row `id`. -/
def deleteCall (id : Scalar) : Call :=
  Call.dbDelete "registrations" [⟨"id", id⟩]

/-- The function `deleteEntry(id, photo_path)`, run on state `s`. -/
def deleteEntry (env : DeleteEnv) (id : Scalar) (photo_path : Option String)
    (s : PageState) : PageState × List Call :=
  let ask := Call.windowConfirm "Delete this registration?"
  if env.ok = false then (s, [ask])
  else
    let s1 := { s with msg := "" }
    match env.error with
    | some error => ({ s1 with msg := error.message }, [ask, deleteCall id])
    | none =>
      let removal :=
        if truthyStr photo_path then [Call.storageRemove "photos" [photo_path.getD ""]]
        else []
      let r := loadMyRegistrations env.list s.sessionEmail s1
      (r.1, [ask, deleteCall id] ++ removal ++ r.2)

/-! ## The crop engine -/

/-- One `ctx.drawImage(image, sx, sy, sw, sh, dx, dy, dw, dh)`; the image is
named by its `src`. -/
structure DrawImage where
  image : String
  sx : Int
  sy : Int
  sw : Nat
  sh : Nat
  dx : Int
  dy : Int
  dw : Nat
  dh : Nat
deriving DecidableEq, Repr

/-- A canvas element: the size of its bitmap and the `drawImage` calls made
on its 2d context. -/
structure Canvas where
  width : Nat
  height : Nat
  drawn : List DrawImage
deriving DecidableEq, Repr

/-- How a call of an `async` function ends: its promise resolves, or it
rejects with nobody handling the rejection. -/
inductive Completion where
  | resolved
  | rejected
deriving DecidableEq, Repr

/-- What the browser answers during one crop: whether the image of a given
`src` loads (`onload`) or not (`onerror`), the blob `canvas.toBlob` hands to
its callback (`null` when it has no data), and the result of
`canvas.toDataURL`. -/
structure CropEnv where
  imageLoads : String → Bool
  toBlob : Canvas → String → Rat → Option Blob
  toDataURL : Canvas → String → Rat → String

/-- The canvas `getCroppedBlob` builds, after its `drawImage`. -/
def cropCanvas (imageSrc : String) (cropPixels : CropArea) : Canvas where
  width := cropPixels.width
  height := cropPixels.height
  drawn := [⟨imageSrc, cropPixels.x, cropPixels.y, cropPixels.width, cropPixels.height,
    0, 0, cropPixels.width, cropPixels.height⟩]

/-- The function `getCroppedBlob(imageSrc, cropPixels)`: `none` when the
awaited load promise rejects (the function then rejects), otherwise
`{ blob, preview }`. -/
def getCroppedBlob (env : CropEnv) (imageSrc : String) (cropPixels : CropArea) :
    Option (Option Blob × String) :=
  if env.imageLoads imageSrc = false then none
  else
    let canvas := cropCanvas imageSrc cropPixels
    some (env.toBlob canvas "image/jpeg" 0.9, env.toDataURL canvas "image/jpeg" 0.9)

/-- The `reader.onload` of `onSelectFile`, with `result` the data URL of the
chosen file; without a file nothing happens. -/
def onSelectFile (result : Option String) (s : PageState) : PageState :=
  match result with
  | none => s
  | some src => { s with rawImageSrc := some src, zoom := 1, crop := ⟨0, 0⟩, cropOpen := true }

/-- The `onCropComplete` of the cropper: `setCroppedAreaPixels(pixels)`. -/
def onCropComplete (pixels : CropArea) (s : PageState) : PageState :=
  { s with croppedAreaPixels := some pixels }

/-- The function `applyCrop()`, run on state `s`. -/
def applyCrop (env : CropEnv) (s : PageState) : PageState × Completion :=
  let s0 := { s with msg := "" }
  match s.croppedAreaPixels with
  | none => (s0, .resolved)
  | some croppedAreaPixels =>
    if truthyStr s.rawImageSrc = false then (s0, .resolved)
    else
      match getCroppedBlob env (s.rawImageSrc.getD "") croppedAreaPixels with
      | none => (s0, .rejected)
      | some (none, _) => ({ s0 with msg := "Could not crop image." }, .resolved)
      | some (some blob, preview) =>
        ({ s0 with photoBlob := some blob, photoPreview := some preview, cropOpen := false },
          .resolved)

/-- The country field of the form: `setCountry(e.target.value)`. -/
def typeCountry (value : String) (s : PageState) : PageState :=
  { s with country := value }

/-! ## Auxiliary definitions for the statements -/

/-- The number a list of decimal digits denotes. -/
def decimalValue (cs : List Char) : Nat :=
  cs.foldl (fun a c => 10 * a + (c.toNat - 48)) 0

/-- A lower-case hexadecimal digit, as `Number.prototype.toString(16)` writes them. -/
def isHexDigit (c : Char) : Bool :=
  ('0' ≤ c && c ≤ '9') || ('a' ≤ c && c ≤ 'f')

/-- The shape of `Math.random().toString(16)` for a number in `[0, 1)`:
`"0"`, or `"0."` followed by hexadecimal digits. -/
def isBase16Fraction (r : String) : Bool :=
  r == "0" || (r.data.take 2 == ['0', '.'] && (r.data.drop 2).all isHexDigit)

/-- The user fills the draft again: `setFullName` from the name field,
`setPhotoBlob` and `setPhotoPreview` from a crop. -/
def refillDraft (fullName : String) (blob : Blob) (preview : String) (s : PageState) :
    PageState :=
  { s with fullName := fullName, photoBlob := some blob, photoPreview := some preview }

/-- Two consecutive calls of `submit()`: the second runs on the state the
first one left; the calls of both, in order. -/
def submitTwice (env1 env2 : SubmitEnv) (s : PageState) : PageState × List Call :=
  ((submit env2 (submit env1 s).1).1,
    (submit env1 s).2 ++ (submit env2 (submit env1 s).1).2)

/-- The action of `toLowerCase` on the letters `A` to `Z`, every other
character kept; used as the `toLowerCase` of the examples. -/
def asciiToLowerCase (s : String) : String :=
  String.mk (s.data.map Char.toLower)

/-- The filter `.eq("registered_by_email", email)`. -/
def ownerFilter (email : String) : EqFilter :=
  ⟨"registered_by_email", .str email⟩

/-- The view URL of the row at position `i`, in the words of the
specification: `null` for a row without a path, `null` when signing that
row's path returns an error, the signed URL otherwise. -/
def expectedPhotoUrl (env : ListEnv) (i : Nat) (r : RegistrationRow) : Option String :=
  match r.photo_path with
  | none => none
  | some p =>
    if p = "" then none
    else if (env.sign i p).error ≠ none then none
    else (env.sign i p).data

/-- An update of a table. -/
def Call.isUpdate : Call → Bool
  | .dbUpdate .. => true
  | _ => false

/-- A registration as the persistence service stores it: the selected
columns and the owner. -/
structure StoredRegistration where
  registered_by_email : String
  row : RegistrationRow
deriving DecidableEq, Repr

/-- The persistence service carrying out `delete().eq("id", id)` on the
contents of `registrations`: the rows with that id are gone. -/
def deleteById (id : Scalar) (table : List StoredRegistration) : List StoredRegistration :=
  table.filter (fun st => st.row.id ≠ id)

/-- The storage service handling an upload under `path` on a bucket that
holds objects under the keys `bucket`: the answer (`error`) and the keys held
afterwards. With `upsert: false` an existing key is refused and nothing
changes; with `upsert: true` the object under an existing key is replaced;
a new key is stored. -/
def bucketUpload (bucket : List String) (path : String) (upsert : Bool) :
    Option RemoteError × List String :=
  if path ∈ bucket then
    if upsert then (none, bucket) else (some ⟨"The resource already exists"⟩, bucket)
  else (none, path :: bucket)

/-! ## Example inputs -/

/-- A List Sync in which the base query answers with no rows. -/
def emptyListEnv : ListEnv :=
  ⟨⟨some [], none⟩, fun _ _ => ⟨none, none⟩⟩

/-- A cropped photo. -/
def demoBlob : Blob :=
  ⟨"image/jpeg", [255, 216, 255]⟩

/-- A page after the gate admitted `ann@example.org`, with a complete draft. -/
def demoDraft : PageState :=
  { PageState.initial with
    sessionEmail := "ann@example.org"
    fullName := " Ann Lee "
    country := "France"
    photoPreview := some "data:image/jpeg;base64,/9j/"
    photoBlob := some demoBlob }

/-- The draft of the scenario: an empty name, country France, a photo. -/
def blankNameDraft : PageState :=
  { demoDraft with fullName := "" }

/-- A world in which the upload and the insert of a submit succeed. -/
def demoSubmitEnv : SubmitEnv :=
  ⟨1700000000000, "0.8f3a", none, none, emptyListEnv⟩

/-- A later world in which the upload and the insert of a submit succeed. -/
def laterSubmitEnv : SubmitEnv :=
  ⟨1700000004321, "0.c41d", none, none, emptyListEnv⟩

/-- A world in which the upload of a submit is refused. -/
def uploadFailsEnv : SubmitEnv :=
  { demoSubmitEnv with uploadErr := some ⟨"The resource already exists"⟩ }

/-- A world in which the upload of a submit succeeds and the insert is refused. -/
def insertFailsEnv : SubmitEnv :=
  { demoSubmitEnv with insertErr := some ⟨"new row violates row-level security policy"⟩ }

/-- A registration of `ann@example.org` as the list shows it. -/
def demoItem : ListItem :=
  ⟨⟨.num 7, "2024-05-01T10:00:00Z", some "Ann Lee", some "France",
    some "ann@example.org/1700000000000-8f3a.jpg"⟩, some "https://signed.example/7"⟩

/-- The page of `ann@example.org` with the edit form open on `demoItem`. -/
def demoEditing : PageState :=
  openEdit demoItem { PageState.initial with sessionEmail := "ann@example.org" }

/-- A world in which the update of a `saveEdit` succeeds. -/
def demoEditEnv : EditEnv :=
  ⟨none, emptyListEnv⟩

/-- A world in which the user confirms a delete and every call succeeds. -/
def demoDeleteEnv : DeleteEnv :=
  ⟨true, none, none, emptyListEnv⟩

/-- An allow-list without a row for `ann@example.org`. -/
def demoAllowList : List AllowedRow :=
  [⟨"bo@example.org", true, some "Norway"⟩, ⟨"cy@example.org", false, none⟩]

/-- A deactivated allow-list row of `ann@example.org`. -/
def inactiveAnn : AllowedRow :=
  ⟨"ann@example.org", false, some "France"⟩

/-- An active allow-list row of `ann@example.org`. -/
def activeAnn : AllowedRow :=
  ⟨"ann@example.org", true, some "France"⟩

/-- A world in which the session is `Ann@Example.org` and the allow-list
lookup answers with `allowed`. -/
def demoGateEnv (allowed : AllowedResponse) : GateEnv :=
  ⟨some "Ann@Example.org", allowed, emptyListEnv⟩

/-- Three registrations with a photo path each. -/
def threeRows : List RegistrationRow :=
  [⟨.num 3, "2024-05-03T10:00:00Z", some "Cy Diaz", some "Peru", some "ann@example.org/3.jpg"⟩,
    ⟨.num 2, "2024-05-02T10:00:00Z", some "Bo Chen", some "Norway", some "ann@example.org/2.jpg"⟩,
    ⟨.num 1, "2024-05-01T10:00:00Z", some "Ann Lee", some "France", some "ann@example.org/1.jpg"⟩]

/-- A List Sync answering with `threeRows`, in which signing fails for the
second row only. -/
def threeRowsEnv : ListEnv :=
  ⟨⟨some threeRows, none⟩, fun i p =>
    if i = 1 then ⟨none, some ⟨"Object not found"⟩⟩ else ⟨some ("https://signed.example/" ++ p), none⟩⟩

/-- A List Sync whose base query fails. -/
def failingListEnv : ListEnv :=
  ⟨⟨none, some ⟨"Failed to fetch"⟩⟩, fun _ _ => ⟨none, none⟩⟩

/-- A world in which the update of a `saveEdit` is refused. -/
def editFailsEnv : EditEnv :=
  ⟨some ⟨"permission denied for table registrations"⟩, emptyListEnv⟩

/-- The stored registrations of `ann@example.org`: `demoItem` and another one. -/
def demoTable : List StoredRegistration :=
  [⟨"ann@example.org", demoItem.row⟩,
    ⟨"ann@example.org", ⟨.num 8, "2024-05-02T10:00:00Z", some "Bo Chen", some "Norway", none⟩⟩]

/-- A world in which the user confirms a delete, the row delete succeeds,
the storage removal fails, and the List Sync answers with what is left of
`demoTable`. -/
def removalFailsEnv : DeleteEnv :=
  ⟨true, none, some ⟨"Object not found"⟩,
    ⟨⟨some ((deleteById (.num 7) demoTable).map StoredRegistration.row), none⟩,
      fun _ _ => ⟨none, none⟩⟩⟩

/-- The data URL of a file that is an image. -/
def goodImageSrc : String :=
  "data:image/png;base64,iVBORw0KGgo="

/-- The data URL of a file that is not a decodable image. -/
def brokenImageSrc : String :=
  "data:image/png;base64,AAAA"

/-- A browser in which `goodImageSrc` loads and no other source does, and
whose encoder writes the size of the canvas into the blob. -/
def demoCropEnv : CropEnv :=
  ⟨fun src => src == goodImageSrc,
    fun c type _ => some ⟨type, [c.width, c.height]⟩,
    fun _ _ _ => "data:image/jpeg;base64,/9j/"⟩

/-- A browser in which every image loads and `toBlob` has no data. -/
def noDataCropEnv : CropEnv :=
  ⟨fun _ => true, fun _ _ _ => none, fun _ _ _ => "data:,"⟩

/-- The pixel size written by the encoder of `demoCropEnv`. -/
def demoPixelSize (b : Blob) : Nat × Nat :=
  (b.bytes.getD 0 0, b.bytes.getD 1 0)

/-- The page with a cropped photo on which the user chose a good image,
moved the cropper, and then chose a file that does not load: the crop area
is still the one of the first image. -/
def staleCropPage : PageState :=
  onSelectFile (some brokenImageSrc)
    (onCropComplete ⟨10, 20, 200, 200⟩ (onSelectFile (some goodImageSrc) demoDraft))

/-- The page with a cropped photo on which the user chose a good image and
moved the cropper. -/
def readyCropPage : PageState :=
  onCropComplete ⟨10, 20, 200, 200⟩ (onSelectFile (some goodImageSrc) demoDraft)

/-- The edit form open on `demoItem` with the name replaced by blanks. -/
def blankNameEdit : PageState :=
  { demoEditing with editName := "  " }

/-! ## Lemmas on the primitives -/

theorem jsTrim_eq_empty_of_blank (s : String)
    (h : ∀ c ∈ s.data, isJsWhiteSpace c = true) : jsTrim s = "" := by
  have h0 : s.data.dropWhile isJsWhiteSpace = [] := List.dropWhile_eq_nil_iff.mpr h
  simp [jsTrim, jsTrimChars, h0]

theorem digitChar_value (m : Nat) (h : m < 10) : (Nat.digitChar m).toNat - 48 = m := by
  interval_cases m <;> rfl

theorem digitChar_ne_dash (m : Nat) (h : m < 10) : Nat.digitChar m ≠ '-' := by
  interval_cases m <;> decide

theorem toDigitsCore_append (fuel n : Nat) (ds : List Char) :
    Nat.toDigitsCore 10 fuel n ds = Nat.toDigitsCore 10 fuel n [] ++ ds := by
  induction fuel generalizing n ds with
  | zero => simp [Nat.toDigitsCore]
  | succ f ih =>
    simp only [Nat.toDigitsCore]
    split
    · simp
    · rw [ih (n / 10) (Nat.digitChar (n % 10) :: ds), ih (n / 10) [Nat.digitChar (n % 10)]]
      simp

theorem decimalValue_snoc (xs : List Char) (d : Char) :
    decimalValue (xs ++ [d]) = 10 * decimalValue xs + (d.toNat - 48) := by
  simp [decimalValue, List.foldl_append]

theorem decimalValue_toDigitsCore (fuel n : Nat) (h : n < fuel) :
    decimalValue (Nat.toDigitsCore 10 fuel n []) = n := by
  induction fuel generalizing n with
  | zero => omega
  | succ f ih =>
    simp only [Nat.toDigitsCore]
    split
    · rename_i h0
      have : n < 10 := by omega
      simp [decimalValue, Nat.mod_eq_of_lt this, digitChar_value n this]
    · rename_i h0
      rw [toDigitsCore_append, decimalValue_snoc, ih (n / 10) (by omega),
        digitChar_value _ (Nat.mod_lt _ (by decide))]
      omega

theorem toDigitsCore_no_dash (fuel n : Nat) (ds : List Char) (hds : '-' ∉ ds) :
    '-' ∉ Nat.toDigitsCore 10 fuel n ds := by
  induction fuel generalizing n ds with
  | zero => simpa [Nat.toDigitsCore] using hds
  | succ f ih =>
    have hd : '-' ≠ Nat.digitChar (n % 10) :=
      fun h => digitChar_ne_dash _ (Nat.mod_lt _ (by decide)) h.symm
    simp only [Nat.toDigitsCore]
    split
    · simp [hd, hds]
    · exact ih _ _ (by simp [hd, hds])

theorem repr_injective (m n : Nat) (h : Nat.repr m = Nat.repr n) : m = n := by
  have h1 : Nat.toDigits 10 m = Nat.toDigits 10 n := by
    have := congrArg String.data h
    simpa [Nat.repr, List.asString] using this
  have := congrArg decimalValue h1
  simpa [Nat.toDigits, decimalValue_toDigitsCore] using this

theorem repr_no_dash (n : Nat) : '-' ∉ (Nat.repr n).data := by
  simpa [Nat.repr, List.asString, Nat.toDigits] using toDigitsCore_no_dash (n + 1) n [] (by simp)

theorem split_at_dash (xs xs2 ys ys2 : List Char) (h1 : '-' ∉ xs) (h2 : '-' ∉ xs2)
    (h : xs ++ '-' :: ys = xs2 ++ '-' :: ys2) : xs = xs2 ∧ ys = ys2 := by
  induction xs generalizing xs2 with
  | nil =>
    cases xs2 with
    | nil => simpa using h
    | cons c cs =>
      simp at h
      simp [← h.1] at h2
  | cons a as ih =>
    cases xs2 with
    | nil =>
      simp at h
      simp [h.1] at h1
    | cons c cs =>
      simp at h
      simp at h1 h2
      obtain ⟨r1, r2⟩ := ih cs h1.2 h2.2 h.2
      exact ⟨by rw [h.1, r1], r2⟩

theorem filePath_data (email : String) (now : Nat) (r : String) :
    (filePath email now r).data
      = email.data ++ '/' :: ((Nat.repr now).data ++ '-' :: ((jsSlice2 r).data ++ ".jpg".data)) := by
  have h : toString now = Nat.repr now := rfl
  simp [filePath, fileName, h, String.data_append]

theorem filePath_eq_iff (email : String) (t1 t2 : Nat) (r1 r2 : String) :
    filePath email t1 r1 = filePath email t2 r2 ↔ t1 = t2 ∧ jsSlice2 r1 = jsSlice2 r2 := by
  constructor
  · intro h
    have hd := congrArg String.data h
    rw [filePath_data, filePath_data] at hd
    have hd2 := List.cons_injective (List.append_cancel_left hd)
    obtain ⟨hr, hs⟩ := split_at_dash _ _ _ _ (repr_no_dash t1) (repr_no_dash t2) hd2
    refine ⟨repr_injective t1 t2 (String.ext hr), String.ext ?_⟩
    exact List.append_cancel_right hs
  · rintro ⟨h1, h2⟩
    simp [filePath, fileName, h1, h2]

theorem jsSlice2_hex (r : String) (h : isBase16Fraction r = true) :
    ∀ c ∈ (jsSlice2 r).data, isHexDigit c = true := by
  intro c hc
  simp only [isBase16Fraction, Bool.or_eq_true, Bool.and_eq_true, beq_iff_eq,
    List.all_eq_true] at h
  rcases h with h | h
  · subst h
    simp [jsSlice2] at hc
  · exact h.2 c (by simpa [jsSlice2] using hc)

/-! ## Lemmas on `loadMyRegistrations` -/

theorem signAll_calls (env : ListEnv) (rows : List RegistrationRow) (i : Nat) :
    ∀ c ∈ (signAll env i rows).2,
      ∃ p, c = Call.storageCreateSignedUrl "photos" p (60 * 60) := by
  induction rows generalizing i with
  | nil => simp [signAll]
  | cons r rs ih =>
    intro c hc
    simp only [signAll, List.mem_append] at hc
    rcases hc with hc | hc
    · unfold signRow at hc
      split at hc
      · simp at hc
      · split at hc
        · simp at hc
        · simp at hc
          exact ⟨_, hc⟩
    · exact ih (i + 1) c hc

theorem loadMyRegistrations_calls (env : ListEnv) (email : String) (s : PageState) :
    ∀ c ∈ (loadMyRegistrations env email s).2,
      c = listQuery email ∨ ∃ p, c = Call.storageCreateSignedUrl "photos" p (60 * 60) := by
  intro c hc
  unfold loadMyRegistrations at hc
  split at hc
  · simp at hc
    exact Or.inl hc
  · simp only [List.mem_cons] at hc
    rcases hc with hc | hc
    · exact Or.inl hc
    · exact Or.inr (signAll_calls env _ 0 c hc)

theorem listQuery_mem_loadMyRegistrations (env : ListEnv) (email : String) (s : PageState) :
    listQuery email ∈ (loadMyRegistrations env email s).2 := by
  unfold loadMyRegistrations
  split <;> simp

theorem loadMyRegistrations_state (env : ListEnv) (email : String) (s : PageState) :
    (loadMyRegistrations env email s).1 =
      { s with
        msg := (loadMyRegistrations env email s).1.msg
        items := (loadMyRegistrations env email s).1.items
        loadingList := false } := by
  unfold loadMyRegistrations
  split <;> rfl

theorem loadMyRegistrations_filter (env : ListEnv) (email : String) (s : PageState)
    (f : Call → Bool) (hq : f (listQuery email) = false)
    (hs : ∀ p, f (Call.storageCreateSignedUrl "photos" p (60 * 60)) = false) :
    (loadMyRegistrations env email s).2.filter f = [] := by
  rw [List.filter_eq_nil_iff]
  intro c hc
  rcases loadMyRegistrations_calls env email s c hc with h | ⟨p, h⟩
  · simp [h, hq]
  · simp [h, hs p]

theorem loadMyRegistrations_select (env : ListEnv) (email : String) (s : PageState)
    (table columns : String) (filters : List EqFilter) (order : Option (String × Bool))
    (limit : Option Nat) (single : Bool)
    (h : Call.dbSelect table columns filters order limit single
      ∈ (loadMyRegistrations env email s).2) :
    table = "registrations" ∧ filters = [ownerFilter email] := by
  rcases loadMyRegistrations_calls env email s _ h with h | ⟨p, h⟩
  · simp only [listQuery, Call.dbSelect.injEq] at h
    exact ⟨h.1, h.2.2.1⟩
  · simp at h

theorem loadMyRegistrations_sessionEmail (env : ListEnv) (email : String) (s : PageState) :
    (loadMyRegistrations env email s).1.sessionEmail = s.sessionEmail := by
  rw [loadMyRegistrations_state]

theorem signRow_item (env : ListEnv) (i : Nat) (r : RegistrationRow) :
    (signRow env i r).1 = ⟨r, expectedPhotoUrl env i r⟩ := by
  unfold signRow expectedPhotoUrl
  split
  · rfl
  · split
    · rfl
    · cases h : (env.sign i _).error <;> simp [h]

theorem signAll_length (env : ListEnv) (rows : List RegistrationRow) (k : Nat) :
    (signAll env k rows).1.length = rows.length := by
  induction rows generalizing k with
  | nil => rfl
  | cons r rs ih => simp [signAll, ih]

theorem signAll_getElem? (env : ListEnv) (rows : List RegistrationRow) (k i : Nat) :
    (signAll env k rows).1[i]?
      = rows[i]?.map (fun r => (⟨r, expectedPhotoUrl env (k + i) r⟩ : ListItem)) := by
  induction rows generalizing k i with
  | nil => simp [signAll]
  | cons r rs ih =>
    cases i with
    | zero => simp [signAll, signRow_item]
    | succ j =>
      simp only [signAll, List.getElem?_cons_succ]
      rw [ih (k + 1) j]
      have : k + 1 + j = k + (j + 1) := by omega
      rw [this]

theorem loadMyRegistrations_ok (env : ListEnv) (email : String) (s : PageState)
    (rows : List RegistrationRow) (he : env.select.error = none)
    (hd : env.select.data = some rows) :
    loadMyRegistrations env email s
      = ({ s with items := (signAll env 0 rows).1, loadingList := false },
          listQuery email :: (signAll env 0 rows).2) := by
  simp [loadMyRegistrations, he, hd]

theorem signAll_rows (env : ListEnv) (rows : List RegistrationRow) (k : Nat) :
    (signAll env k rows).1.map ListItem.row = rows := by
  induction rows generalizing k with
  | nil => rfl
  | cons r rs ih => simp [signAll, signRow_item, ih]

/-! ## Lemmas on the allow-list lookup -/

theorem allowedLookup_insert_inactive (pre post : List AllowedRow) (row : AllowedRow)
    (failure : Option RemoteError) (email : String) (h : row.active = false) :
    allowedLookup (pre ++ row :: post) failure email
      = allowedLookup (pre ++ post) failure email := by
  simp [allowedLookup, List.filter_append, List.filter_cons, h]

theorem allowedLookup_absent (table : List AllowedRow) (email : String)
    (h : ∀ r ∈ table, r.email ≠ email) :
    allowedLookup table none email = ⟨none, none⟩ := by
  have h0 : table.filter (fun r => r.email = email ∧ r.active = true) = [] := by
    rw [List.filter_eq_nil_iff]
    intro r hr
    simp [h r hr]
  simp only [allowedLookup, h0]

theorem gateEffect_not_allowed (toLowerCase : String → String) (raw : String)
    (list : ListEnv) (country : String) (s : PageState) (h : toLowerCase raw ≠ "") :
    gateEffect toLowerCase ⟨some raw, ⟨none, none⟩, list⟩ country s
      = (s, [Call.authGetSession, allowedQuery (toLowerCase raw), Call.authSignOut,
          Call.routerPush "/login"]) := by
  simp [gateEffect, h]

theorem loadMyRegistrations_calls_indep (env : ListEnv) (email : String)
    (s1 s2 : PageState) :
    (loadMyRegistrations env email s1).2 = (loadMyRegistrations env email s2).2 := by
  unfold loadMyRegistrations
  split <;> rfl

theorem loadMyRegistrations_items_indep (env : ListEnv) (email : String)
    (s1 s2 : PageState) (h : s1.items = s2.items) :
    (loadMyRegistrations env email s1).1.items = (loadMyRegistrations env email s2).1.items := by
  unfold loadMyRegistrations
  split
  · exact h
  · rfl

theorem allowedLookup_no_active (table : List AllowedRow) (email : String)
    (h : ∀ r ∈ table, ¬ (r.email = email ∧ r.active = true)) :
    allowedLookup table none email = ⟨none, none⟩ := by
  have h0 : table.filter (fun r => r.email = email ∧ r.active = true) = [] := by
    rw [List.filter_eq_nil_iff]
    intro r hr
    simpa using h r hr
  simp only [allowedLookup, h0]

theorem allowedLookup_one_active (table : List AllowedRow) (email : String) (a : AllowedRow)
    (h : table.filter (fun r => r.email = email ∧ r.active = true) = [a]) :
    allowedLookup table none email = ⟨some a, none⟩ ∧ a.email = email ∧ a.active = true := by
  have hm : a ∈ table.filter (fun r => r.email = email ∧ r.active = true) := by
    rw [h]
    exact List.mem_singleton.mpr rfl
  have hp := (List.mem_filter.mp hm).2
  refine ⟨by simp only [allowedLookup, h], ?_⟩
  simpa using hp

theorem gateEffect_allowed (toLowerCase : String → String) (env : GateEnv)
    (country : String) (s : PageState) (raw : String) (a : AllowedRow)
    (hs : env.sessionUserEmail = some raw) (hne : toLowerCase raw ≠ "")
    (he : env.allowed.error = none) (hd : env.allowed.data = some a) :
    (gateEffect toLowerCase env country s).1.sessionEmail = toLowerCase raw ∧
    (gateEffect toLowerCase env country s).2
      = [Call.authGetSession, allowedQuery (toLowerCase raw)]
        ++ (loadMyRegistrations env.list (toLowerCase raw) s).2 := by
  constructor
  · simp only [gateEffect, hs, Option.map_some', hne, if_false, he, hd]
    rw [loadMyRegistrations_sessionEmail]
    split <;> rfl
  · simp only [gateEffect, hs, Option.map_some', hne, if_false, he, hd]
    rw [loadMyRegistrations_calls_indep env.list (toLowerCase raw) _ s]

/-! ## Lemmas on the storage service -/

theorem bucketUpload_twice_distinct (bucket : List String) (k1 k2 : String)
    (h1 : (bucketUpload bucket k1 false).1 = none)
    (h2 : (bucketUpload (bucketUpload bucket k1 false).2 k2 false).1 = none) :
    k1 ≠ k2 := by
  by_cases hk : k1 ∈ bucket
  · simp [bucketUpload, hk] at h1
  · have hb : (bucketUpload bucket k1 false).2 = k1 :: bucket := by
      simp [bucketUpload, hk]
    rw [hb] at h2
    by_cases hk2 : k2 ∈ k1 :: bucket
    · simp [bucketUpload, hk2] at h2
    · intro heq
      exact hk2 (by rw [heq]; exact List.mem_cons_self _ _)

/-! ## Lemmas on `submit` -/

theorem submit_uploads (env : SubmitEnv) (s : PageState) (b : Blob)
    (h1 : s.sessionEmail ≠ "") (h2 : jsTrim s.fullName ≠ "")
    (h3 : jsTrim s.country ≠ "") (h4 : s.photoBlob = some b) :
    (submit env s).2.filter Call.isUpload
      = [uploadCall (filePath s.sessionEmail env.now env.randomBase16) b] := by
  have hf := loadMyRegistrations_filter env.list s.sessionEmail
    { s with msg := "", fullName := "", photoPreview := none, photoBlob := none }
    Call.isUpload rfl (fun _ => rfl)
  cases hu : env.uploadErr <;> cases hi : env.insertErr <;>
    simp [submit, h1, h2, h3, h4, hu, hi, uploadCall, insertCall, Call.isUpload, hf]

theorem submit_inserts (env : SubmitEnv) (s : PageState) (b : Blob)
    (h1 : s.sessionEmail ≠ "") (h2 : jsTrim s.fullName ≠ "")
    (h3 : jsTrim s.country ≠ "") (h4 : s.photoBlob = some b)
    (hu : env.uploadErr = none) :
    (submit env s).2.filter Call.isInsert
      = [insertCall s.sessionEmail s.fullName s.country
          (filePath s.sessionEmail env.now env.randomBase16)] := by
  have hf := loadMyRegistrations_filter env.list s.sessionEmail
    { s with msg := "", fullName := "", photoPreview := none, photoBlob := none }
    Call.isInsert rfl (fun _ => rfl)
  cases hi : env.insertErr <;>
    simp [submit, h1, h2, h3, h4, hu, hi, uploadCall, insertCall, Call.isInsert, hf]

theorem submit_success_state (env : SubmitEnv) (s : PageState) (b : Blob)
    (h1 : s.sessionEmail ≠ "") (h2 : jsTrim s.fullName ≠ "")
    (h3 : jsTrim s.country ≠ "") (h4 : s.photoBlob = some b)
    (hu : env.uploadErr = none) (hi : env.insertErr = none) :
    (submit env s).1 =
      { s with
        msg := (submit env s).1.msg
        items := (submit env s).1.items
        loadingList := false
        fullName := ""
        photoPreview := none
        photoBlob := none
        successText := "Registration saved."
        successOpen := true } := by
  have hst := loadMyRegistrations_state env.list s.sessionEmail
    { s with msg := "", fullName := "", photoPreview := none, photoBlob := none }
  have key : (submit env s).1 =
      { (loadMyRegistrations env.list s.sessionEmail
            { s with msg := "", fullName := "", photoPreview := none, photoBlob := none }).1
          with successText := "Registration saved.", successOpen := true } := by
    simp [submit, h1, h2, h3, h4, hu, hi]
  rw [key]
  generalize loadMyRegistrations env.list s.sessionEmail
    { s with msg := "", fullName := "", photoPreview := none, photoBlob := none } = r at hst ⊢
  rw [hst]

theorem submit_after_success_stops (env1 env2 : SubmitEnv) (s : PageState) (b : Blob)
    (h1 : s.sessionEmail ≠ "") (h2 : jsTrim s.fullName ≠ "")
    (h3 : jsTrim s.country ≠ "") (h4 : s.photoBlob = some b)
    (hu : env1.uploadErr = none) (hi : env1.insertErr = none) :
    (submit env2 (submit env1 s).1).2 = [] ∧
    (submit env2 (submit env1 s).1).1.msg = "Enter NAME SURNAME." := by
  have hs := submit_success_state env1 s b h1 h2 h3 h4 hu hi
  have e1 : (submit env1 s).1.sessionEmail = s.sessionEmail := by rw [hs]
  have e2 : (submit env1 s).1.fullName = "" := by rw [hs]
  generalize (submit env1 s).1 = s2 at e1 e2
  have e3 : jsTrim s2.fullName = "" := by rw [e2]; rfl
  have e4 : s2.sessionEmail ≠ "" := by rw [e1]; exact h1
  simp [submit, e3, e4]

/-! ## Validation in `submit` -/

/-- C1: `submit` checks, in this order, that a Session Identity is present,
that the trimmed name is non-empty, that the trimmed country is non-empty and
that a photo blob is present, and the message it leaves is the one of the
first failing check; the four messages are pairwise distinct; the draft with
an empty name, country France and a photo, and every draft with a
white-space-only name, gets the name message. -/
theorem submit_reports_first_failing_check (env : SubmitEnv) (s : PageState) :
    (s.sessionEmail = "" → (submit env s).1.msg = "Not logged in.") ∧
    (s.sessionEmail ≠ "" → jsTrim s.fullName = "" →
      (submit env s).1.msg = "Enter NAME SURNAME.") ∧
    (s.sessionEmail ≠ "" → jsTrim s.fullName ≠ "" → jsTrim s.country = "" →
      (submit env s).1.msg = "Enter COUNTRY.") ∧
    (s.sessionEmail ≠ "" → jsTrim s.fullName ≠ "" → jsTrim s.country ≠ "" →
      s.photoBlob = none → (submit env s).1.msg = "Upload and crop a photo.") ∧
    (["Not logged in.", "Enter NAME SURNAME.", "Enter COUNTRY.",
      "Upload and crop a photo."] : List String).Nodup ∧
    (s.sessionEmail ≠ "" → s.fullName = "" → s.country = "France" → s.photoBlob ≠ none →
      (submit env s).1.msg = "Enter NAME SURNAME.") ∧
    (s.sessionEmail ≠ "" → (∀ c ∈ s.fullName.data, isJsWhiteSpace c = true) →
      (submit env s).1.msg = "Enter NAME SURNAME.") := by
  refine ⟨?_, ?_, ?_, ?_, by decide, ?_, ?_⟩
  · intro h
    simp [submit, h]
  · intro h1 h2
    simp [submit, h1, h2]
  · intro h1 h2 h3
    simp [submit, h1, h2, h3]
  · intro h1 h2 h3 h4
    simp [submit, h1, h2, h3, h4]
  · intro h1 h2 _ _
    have h : jsTrim s.fullName = "" := by rw [h2]; rfl
    simp [submit, h1, h]
  · intro h1 h2
    simp [submit, h1, jsTrim_eq_empty_of_blank s.fullName h2]

theorem submit_reports_first_failing_check_witness :
    (submit demoSubmitEnv PageState.initial).1.msg = "Not logged in." ∧
    (submit demoSubmitEnv blankNameDraft).1.msg = "Enter NAME SURNAME." ∧
    (submit demoSubmitEnv { demoDraft with country := " " }).1.msg = "Enter COUNTRY." ∧
    (submit demoSubmitEnv { demoDraft with photoBlob := none }).1.msg
      = "Upload and crop a photo." ∧
    (submit demoSubmitEnv { demoDraft with fullName := " \t\n", country := "" }).1.msg
      = "Enter NAME SURNAME." :=
  ⟨(submit_reports_first_failing_check demoSubmitEnv PageState.initial).1 rfl,
    (submit_reports_first_failing_check demoSubmitEnv blankNameDraft).2.2.2.2.2.1
      (by decide) rfl rfl (by decide),
    (submit_reports_first_failing_check demoSubmitEnv { demoDraft with country := " " }).2.2.1
      (by decide) (by decide) (by decide),
    (submit_reports_first_failing_check demoSubmitEnv
      { demoDraft with photoBlob := none }).2.2.2.1
      (by decide) (by decide) (by decide) rfl,
    (submit_reports_first_failing_check demoSubmitEnv
      { demoDraft with fullName := " \t\n", country := "" }).2.2.2.2.2.2
      (by decide) (by decide)⟩

/-- C2: a draft that fails one of the checks of `submit` makes `submit`
issue no call at all, and changes no cell of the page but the message: the
name, the country, the photo blob and the photo preview are what they were. -/
theorem submit_invalid_no_call_draft_untouched (env : SubmitEnv) (s : PageState)
    (h : s.sessionEmail = "" ∨ jsTrim s.fullName = "" ∨ jsTrim s.country = "" ∨
      s.photoBlob = none) :
    (submit env s).2 = [] ∧
    (∀ c ∈ (submit env s).2, c.isRemote = false) ∧
    (submit env s).1.fullName = s.fullName ∧
    (submit env s).1.country = s.country ∧
    (submit env s).1.photoBlob = s.photoBlob ∧
    (submit env s).1.photoPreview = s.photoPreview ∧
    (submit env s).1 = { s with msg := (submit env s).1.msg } := by
  have key : ∃ m, submit env s = ({ s with msg := m }, []) := by
    unfold submit
    by_cases h1 : s.sessionEmail = ""
    · exact ⟨"Not logged in.", by simp [h1]⟩
    by_cases h2 : jsTrim s.fullName = ""
    · exact ⟨"Enter NAME SURNAME.", by simp [h1, h2]⟩
    by_cases h3 : jsTrim s.country = ""
    · exact ⟨"Enter COUNTRY.", by simp [h1, h2, h3]⟩
    have h4 : s.photoBlob = none := by tauto
    exact ⟨"Upload and crop a photo.", by simp [h1, h2, h3, h4]⟩
  obtain ⟨m, hm⟩ := key
  simp [hm]

theorem submit_invalid_no_call_draft_untouched_witness :
    (submit demoSubmitEnv blankNameDraft).2 = [] ∧
    (∀ c ∈ (submit demoSubmitEnv blankNameDraft).2, c.isRemote = false) ∧
    (submit demoSubmitEnv blankNameDraft).1.fullName = blankNameDraft.fullName ∧
    (submit demoSubmitEnv blankNameDraft).1.country = blankNameDraft.country ∧
    (submit demoSubmitEnv blankNameDraft).1.photoBlob = blankNameDraft.photoBlob ∧
    (submit demoSubmitEnv blankNameDraft).1.photoPreview = blankNameDraft.photoPreview ∧
    (submit demoSubmitEnv blankNameDraft).1
      = { blankNameDraft with msg := (submit demoSubmitEnv blankNameDraft).1.msg } :=
  submit_invalid_no_call_draft_untouched demoSubmitEnv blankNameDraft
    (Or.inr (Or.inl (by decide)))

/-! ## The remote steps of `submit` -/

/-- C3: when a draft passes validation and the upload answers with an error,
`submit` leaves that error's message, has issued the one upload and nothing
else (no insert, no second upload, no List Sync), and the name, the country
and the photo are what they were. -/
theorem submit_upload_error_aborts (env : SubmitEnv) (s : PageState) (b : Blob)
    (e : RemoteError) (h1 : s.sessionEmail ≠ "") (h2 : jsTrim s.fullName ≠ "")
    (h3 : jsTrim s.country ≠ "") (h4 : s.photoBlob = some b)
    (hu : env.uploadErr = some e) :
    (submit env s).1.msg = e.message ∧
    (submit env s).2
      = [uploadCall (filePath s.sessionEmail env.now env.randomBase16) b] ∧
    (submit env s).2.filter Call.isInsert = [] ∧
    ((submit env s).2.filter Call.isUpload).length = 1 ∧
    (submit env s).2.filter Call.isListSelect = [] ∧
    (submit env s).1.fullName = s.fullName ∧
    (submit env s).1.country = s.country ∧
    (submit env s).1.photoBlob = s.photoBlob ∧
    (submit env s).1.photoPreview = s.photoPreview := by
  have key : submit env s = ({ s with msg := e.message },
      [uploadCall (filePath s.sessionEmail env.now env.randomBase16) b]) := by
    simp [submit, h1, h2, h3, h4, hu]
  simp [key, uploadCall, Call.isInsert, Call.isUpload, Call.isListSelect]

theorem submit_upload_error_aborts_witness :
    (submit uploadFailsEnv demoDraft).1.msg = "The resource already exists" ∧
    (submit uploadFailsEnv demoDraft).2
      = [uploadCall (filePath "ann@example.org" 1700000000000 "0.8f3a") demoBlob] ∧
    (submit uploadFailsEnv demoDraft).2.filter Call.isInsert = [] ∧
    ((submit uploadFailsEnv demoDraft).2.filter Call.isUpload).length = 1 ∧
    (submit uploadFailsEnv demoDraft).2.filter Call.isListSelect = [] ∧
    (submit uploadFailsEnv demoDraft).1.fullName = " Ann Lee " ∧
    (submit uploadFailsEnv demoDraft).1.country = "France" ∧
    (submit uploadFailsEnv demoDraft).1.photoBlob = some demoBlob ∧
    (submit uploadFailsEnv demoDraft).1.photoPreview = demoDraft.photoPreview :=
  submit_upload_error_aborts uploadFailsEnv demoDraft demoBlob
    ⟨"The resource already exists"⟩ (by decide) (by decide) (by decide) rfl rfl

/-- C4: when a draft passes validation and both the upload and the insert
succeed, after `submit` the name is empty, the photo blob and the photo
preview are null, the country is the one it was before the call, and the
List Sync of the Session Identity has run (its base query was issued, after
the insert, and the page carries its result). -/
theorem submit_success_resets_draft (env : SubmitEnv) (s : PageState) (b : Blob)
    (h1 : s.sessionEmail ≠ "") (h2 : jsTrim s.fullName ≠ "")
    (h3 : jsTrim s.country ≠ "") (h4 : s.photoBlob = some b)
    (hu : env.uploadErr = none) (hi : env.insertErr = none) :
    (submit env s).1.fullName = "" ∧
    (submit env s).1.photoBlob = none ∧
    (submit env s).1.photoPreview = none ∧
    (submit env s).1.country = s.country ∧
    listQuery s.sessionEmail ∈ (submit env s).2 ∧
    (submit env s).2
      = [uploadCall (filePath s.sessionEmail env.now env.randomBase16) b,
          insertCall s.sessionEmail s.fullName s.country
            (filePath s.sessionEmail env.now env.randomBase16)]
        ++ (loadMyRegistrations env.list s.sessionEmail s).2 ++ [Call.setTimeout 2000] ∧
    (submit env s).1.items = (loadMyRegistrations env.list s.sessionEmail s).1.items ∧
    (submit env s).1.successOpen = true := by
  have key : submit env s =
      ({ (loadMyRegistrations env.list s.sessionEmail
            { s with msg := "", fullName := "", photoPreview := none, photoBlob := none }).1
          with successText := "Registration saved.", successOpen := true },
        [uploadCall (filePath s.sessionEmail env.now env.randomBase16) b,
          insertCall s.sessionEmail s.fullName s.country
            (filePath s.sessionEmail env.now env.randomBase16)]
        ++ (loadMyRegistrations env.list s.sessionEmail
            { s with msg := "", fullName := "", photoPreview := none, photoBlob := none }).2
        ++ [Call.setTimeout 2000]) := by
    simp [submit, h1, h2, h3, h4, hu, hi]
  have hq := listQuery_mem_loadMyRegistrations env.list s.sessionEmail
    { s with msg := "", fullName := "", photoPreview := none, photoBlob := none }
  have hst := loadMyRegistrations_state env.list s.sessionEmail
    { s with msg := "", fullName := "", photoPreview := none, photoBlob := none }
  rw [key]
  refine ⟨?_, ?_, ?_, ?_, ?_, ?_, ?_, rfl⟩
  · show (loadMyRegistrations _ _ _).1.fullName = ""
    rw [hst]
  · show (loadMyRegistrations _ _ _).1.photoBlob = none
    rw [hst]
  · show (loadMyRegistrations _ _ _).1.photoPreview = none
    rw [hst]
  · show (loadMyRegistrations _ _ _).1.country = s.country
    rw [hst]
  · simp [hq]
  · rw [loadMyRegistrations_calls_indep env.list s.sessionEmail _ s]
  · exact loadMyRegistrations_items_indep env.list s.sessionEmail _ s rfl

theorem submit_success_resets_draft_witness :
    (submit demoSubmitEnv demoDraft).1.fullName = "" ∧
    (submit demoSubmitEnv demoDraft).1.photoBlob = none ∧
    (submit demoSubmitEnv demoDraft).1.photoPreview = none ∧
    (submit demoSubmitEnv demoDraft).1.country = "France" ∧
    listQuery "ann@example.org" ∈ (submit demoSubmitEnv demoDraft).2 ∧
    (submit demoSubmitEnv demoDraft).2
      = [uploadCall (filePath "ann@example.org" 1700000000000 "0.8f3a") demoBlob,
          insertCall "ann@example.org" " Ann Lee " "France"
            (filePath "ann@example.org" 1700000000000 "0.8f3a")]
        ++ (loadMyRegistrations emptyListEnv "ann@example.org" demoDraft).2
        ++ [Call.setTimeout 2000] ∧
    (submit demoSubmitEnv demoDraft).1.items
      = (loadMyRegistrations emptyListEnv "ann@example.org" demoDraft).1.items ∧
    (submit demoSubmitEnv demoDraft).1.successOpen = true :=
  submit_success_resets_draft demoSubmitEnv demoDraft demoBlob
    (by decide) (by decide) (by decide) rfl rfl rfl

/-- C5: when a draft passes validation, the upload succeeds and the insert
answers with an error, `submit` leaves that error's message, has issued the
upload and the insert and nothing else (no storage removal of the uploaded
key, no List Sync, no timer), the success popup is as it was, and the name,
the country and the photo are what they were. -/
theorem submit_insert_error_keeps_upload (env : SubmitEnv) (s : PageState) (b : Blob)
    (e : RemoteError) (h1 : s.sessionEmail ≠ "") (h2 : jsTrim s.fullName ≠ "")
    (h3 : jsTrim s.country ≠ "") (h4 : s.photoBlob = some b)
    (hu : env.uploadErr = none) (hi : env.insertErr = some e) :
    (submit env s).1.msg = e.message ∧
    (submit env s).2
      = [uploadCall (filePath s.sessionEmail env.now env.randomBase16) b,
          insertCall s.sessionEmail s.fullName s.country
            (filePath s.sessionEmail env.now env.randomBase16)] ∧
    (submit env s).2.filter Call.isStorageRemove = [] ∧
    (submit env s).2.filter Call.isListSelect = [] ∧
    Call.setTimeout 2000 ∉ (submit env s).2 ∧
    (submit env s).1.successOpen = s.successOpen ∧
    (submit env s).1.successText = s.successText ∧
    (submit env s).1.fullName = s.fullName ∧
    (submit env s).1.country = s.country ∧
    (submit env s).1.photoBlob = s.photoBlob ∧
    (submit env s).1.photoPreview = s.photoPreview := by
  have key : submit env s = ({ s with msg := e.message },
      [uploadCall (filePath s.sessionEmail env.now env.randomBase16) b,
        insertCall s.sessionEmail s.fullName s.country
          (filePath s.sessionEmail env.now env.randomBase16)]) := by
    simp [submit, h1, h2, h3, h4, hu, hi]
  simp [key, uploadCall, insertCall, Call.isStorageRemove, Call.isListSelect]

theorem submit_insert_error_keeps_upload_witness :
    (submit insertFailsEnv demoDraft).1.msg
      = "new row violates row-level security policy" ∧
    (submit insertFailsEnv demoDraft).2
      = [uploadCall (filePath "ann@example.org" 1700000000000 "0.8f3a") demoBlob,
          insertCall "ann@example.org" " Ann Lee " "France"
            (filePath "ann@example.org" 1700000000000 "0.8f3a")] ∧
    (submit insertFailsEnv demoDraft).2.filter Call.isStorageRemove = [] ∧
    (submit insertFailsEnv demoDraft).2.filter Call.isListSelect = [] ∧
    Call.setTimeout 2000 ∉ (submit insertFailsEnv demoDraft).2 ∧
    (submit insertFailsEnv demoDraft).1.successOpen = false ∧
    (submit insertFailsEnv demoDraft).1.successText = "" ∧
    (submit insertFailsEnv demoDraft).1.fullName = " Ann Lee " ∧
    (submit insertFailsEnv demoDraft).1.country = "France" ∧
    (submit insertFailsEnv demoDraft).1.photoBlob = some demoBlob ∧
    (submit insertFailsEnv demoDraft).1.photoPreview = demoDraft.photoPreview :=
  submit_insert_error_keeps_upload insertFailsEnv demoDraft demoBlob
    ⟨"new row violates row-level security policy"⟩
    (by decide) (by decide) (by decide) rfl rfl rfl

/-- C6: when a draft passes validation and the upload succeeds, the one
insert `submit` issues carries the row with `registered_by_email` the Session
Identity, `full_name` the trimmed name, `country` the trimmed country and
`photo_path` the key of the one upload; that key is the Session Identity,
a slash, the decimal timestamp, a dash, the base-16 rendering of the random
number without its first two characters, and `.jpg`: it starts with the email
and a slash and ends with `.jpg`, and the part after the dash is made of
hexadecimal digits whenever the rendering is `0` or `0.` and hexadecimal
digits. -/
theorem submit_insert_row (env : SubmitEnv) (s : PageState) (b : Blob)
    (h1 : s.sessionEmail ≠ "") (h2 : jsTrim s.fullName ≠ "")
    (h3 : jsTrim s.country ≠ "") (h4 : s.photoBlob = some b)
    (hu : env.uploadErr = none) :
    ∃ key : String,
      (submit env s).2.filter Call.isUpload
        = [Call.storageUpload "photos" key b "image/jpeg" false] ∧
      (submit env s).2.filter Call.isInsert
        = [Call.dbInsert "registrations"
            [("registered_by_email", s.sessionEmail), ("full_name", jsTrim s.fullName),
              ("country", jsTrim s.country), ("photo_path", key)]] ∧
      key = s.sessionEmail ++ "/" ++ (toString env.now ++ "-"
        ++ jsSlice2 env.randomBase16 ++ ".jpg") ∧
      (s.sessionEmail ++ "/").data <+: key.data ∧
      ".jpg".data <:+ key.data ∧
      (isBase16Fraction env.randomBase16 = true →
        ∀ c ∈ (jsSlice2 env.randomBase16).data, isHexDigit c = true) := by
  refine ⟨filePath s.sessionEmail env.now env.randomBase16,
    submit_uploads env s b h1 h2 h3 h4, submit_inserts env s b h1 h2 h3 h4 hu, rfl, ?_, ?_, ?_⟩
  · exact ⟨(fileName env.now env.randomBase16).data, by simp [filePath]⟩
  · refine ⟨(s.sessionEmail ++ "/" ++ (toString env.now ++ "-"
      ++ jsSlice2 env.randomBase16)).data, ?_⟩
    simp [filePath, fileName, String.data_append, List.append_assoc]
  · exact jsSlice2_hex env.randomBase16

theorem submit_insert_row_witness :
    ∃ key : String,
      (submit demoSubmitEnv demoDraft).2.filter Call.isUpload
        = [Call.storageUpload "photos" key demoBlob "image/jpeg" false] ∧
      (submit demoSubmitEnv demoDraft).2.filter Call.isInsert
        = [Call.dbInsert "registrations"
            [("registered_by_email", demoDraft.sessionEmail),
              ("full_name", jsTrim demoDraft.fullName),
              ("country", jsTrim demoDraft.country), ("photo_path", key)]] ∧
      key = demoDraft.sessionEmail ++ "/" ++ (toString demoSubmitEnv.now ++ "-"
        ++ jsSlice2 demoSubmitEnv.randomBase16 ++ ".jpg") ∧
      (demoDraft.sessionEmail ++ "/").data <+: key.data ∧
      ".jpg".data <:+ key.data ∧
      (isBase16Fraction demoSubmitEnv.randomBase16 = true →
        ∀ c ∈ (jsSlice2 demoSubmitEnv.randomBase16).data, isHexDigit c = true) :=
  submit_insert_row demoSubmitEnv demoDraft demoBlob
    (by decide) (by decide) (by decide) rfl rfl

/-! ## Submitting twice -/

/-- C7, as stated, fails for two consecutive calls of which the second
follows the completed first: the successful `submit` of a valid draft empties
the name and the photo, so the second `submit` runs on that emptied draft and
stops at the name check; the two calls together issue one upload and one
insert. -/
theorem submit_twice_issues_one_upload :
    demoDraft.sessionEmail ≠ "" ∧ jsTrim demoDraft.fullName ≠ "" ∧
    jsTrim demoDraft.country ≠ "" ∧ demoDraft.photoBlob ≠ none ∧
    demoSubmitEnv.uploadErr = none ∧ demoSubmitEnv.insertErr = none ∧
    laterSubmitEnv.uploadErr = none ∧ laterSubmitEnv.insertErr = none ∧
    emptyListEnv.select.error = none ∧
    ((submitTwice demoSubmitEnv laterSubmitEnv demoDraft).2.filter Call.isUpload).length = 1 ∧
    ((submitTwice demoSubmitEnv laterSubmitEnv demoDraft).2.filter Call.isInsert).length = 1 ∧
    (submit laterSubmitEnv (submit demoSubmitEnv demoDraft).1).2 = [] ∧
    (submitTwice demoSubmitEnv laterSubmitEnv demoDraft).1.msg = "Enter NAME SURNAME." := by
  decide

/-- C7, amended. A `submit` that follows the completed successful `submit`
of a valid draft, nothing entered in between, issues no call and leaves
`Enter NAME SURNAME.`. Two calls of `submit` that each run on a draft that
passes validation (the second click made while the first call is in flight,
or made after the user entered a name and a photo again), every remote call
succeeding on a storage that handles the two uploads one after the other and
refuses an existing key, issue two uploads, both with `upsert: false`, under
two distinct storage paths, and two inserts, each carrying the path of its
own upload. -/
theorem valid_draft_submitted_twice (env1 env2 : SubmitEnv) (s1 s2 : PageState)
    (b1 b2 : Blob) (bucket : List String)
    (h1 : s1.sessionEmail ≠ "") (h2 : jsTrim s1.fullName ≠ "")
    (h3 : jsTrim s1.country ≠ "") (h4 : s1.photoBlob = some b1)
    (g1 : s2.sessionEmail ≠ "") (g2 : jsTrim s2.fullName ≠ "")
    (g3 : jsTrim s2.country ≠ "") (g4 : s2.photoBlob = some b2)
    (hu1 : env1.uploadErr = none) (hi1 : env1.insertErr = none)
    (hu2 : env2.uploadErr = none) (_hi2 : env2.insertErr = none)
    (hstore :
      (env1.uploadErr
          = (bucketUpload bucket (filePath s1.sessionEmail env1.now env1.randomBase16) false).1 ∧
        env2.uploadErr
          = (bucketUpload
              (bucketUpload bucket
                (filePath s1.sessionEmail env1.now env1.randomBase16) false).2
              (filePath s2.sessionEmail env2.now env2.randomBase16) false).1) ∨
      (env2.uploadErr
          = (bucketUpload bucket (filePath s2.sessionEmail env2.now env2.randomBase16) false).1 ∧
        env1.uploadErr
          = (bucketUpload
              (bucketUpload bucket
                (filePath s2.sessionEmail env2.now env2.randomBase16) false).2
              (filePath s1.sessionEmail env1.now env1.randomBase16) false).1)) :
    (∀ env : SubmitEnv,
      (submit env (submit env1 s1).1).2 = [] ∧
      (submit env (submit env1 s1).1).1.msg = "Enter NAME SURNAME.") ∧
    ((submit env1 s1).2 ++ (submit env2 s2).2).filter Call.isUpload
      = [Call.storageUpload "photos" (filePath s1.sessionEmail env1.now env1.randomBase16)
            b1 "image/jpeg" false,
          Call.storageUpload "photos" (filePath s2.sessionEmail env2.now env2.randomBase16)
            b2 "image/jpeg" false] ∧
    filePath s1.sessionEmail env1.now env1.randomBase16
      ≠ filePath s2.sessionEmail env2.now env2.randomBase16 ∧
    ((submit env1 s1).2 ++ (submit env2 s2).2).filter Call.isInsert
      = [insertCall s1.sessionEmail s1.fullName s1.country
            (filePath s1.sessionEmail env1.now env1.randomBase16),
          insertCall s2.sessionEmail s2.fullName s2.country
            (filePath s2.sessionEmail env2.now env2.randomBase16)] := by
  refine ⟨?_, ?_, ?_, ?_⟩
  · intro env
    exact submit_after_success_stops env1 env s1 b1 h1 h2 h3 h4 hu1 hi1
  · rw [List.filter_append, submit_uploads env1 s1 b1 h1 h2 h3 h4,
      submit_uploads env2 s2 b2 g1 g2 g3 g4]
    rfl
  · rcases hstore with ⟨a1, a2⟩ | ⟨a2, a1⟩
    · exact bucketUpload_twice_distinct bucket _ _ (by rw [← a1]; exact hu1)
        (by rw [← a2]; exact hu2)
    · exact (bucketUpload_twice_distinct bucket _ _ (by rw [← a2]; exact hu2)
        (by rw [← a1]; exact hu1)).symm
  · rw [List.filter_append, submit_inserts env1 s1 b1 h1 h2 h3 h4 hu1,
      submit_inserts env2 s2 b2 g1 g2 g3 g4 hu2]
    rfl

theorem valid_draft_submitted_twice_witness :
    ((∀ env : SubmitEnv,
        (submit env (submit demoSubmitEnv demoDraft).1).2 = [] ∧
        (submit env (submit demoSubmitEnv demoDraft).1).1.msg = "Enter NAME SURNAME.") ∧
      ((submit demoSubmitEnv demoDraft).2 ++ (submit laterSubmitEnv demoDraft).2).filter
          Call.isUpload
        = [Call.storageUpload "photos" (filePath "ann@example.org" 1700000000000 "0.8f3a")
              demoBlob "image/jpeg" false,
            Call.storageUpload "photos" (filePath "ann@example.org" 1700000004321 "0.c41d")
              demoBlob "image/jpeg" false] ∧
      filePath "ann@example.org" 1700000000000 "0.8f3a"
        ≠ filePath "ann@example.org" 1700000004321 "0.c41d" ∧
      ((submit demoSubmitEnv demoDraft).2 ++ (submit laterSubmitEnv demoDraft).2).filter
          Call.isInsert
        = [insertCall "ann@example.org" " Ann Lee " "France"
              (filePath "ann@example.org" 1700000000000 "0.8f3a"),
            insertCall "ann@example.org" " Ann Lee " "France"
              (filePath "ann@example.org" 1700000004321 "0.c41d")]) ∧
    ((submit demoSubmitEnv demoDraft).2
        ++ (submit laterSubmitEnv (refillDraft "Bo Chen" demoBlob "data:image/jpeg;base64,/9k/"
            (submit demoSubmitEnv demoDraft).1)).2).filter Call.isInsert
      = [insertCall "ann@example.org" " Ann Lee " "France"
            (filePath "ann@example.org" 1700000000000 "0.8f3a"),
          insertCall "ann@example.org" "Bo Chen" "France"
            (filePath "ann@example.org" 1700000004321 "0.c41d")] :=
  ⟨valid_draft_submitted_twice demoSubmitEnv laterSubmitEnv demoDraft demoDraft demoBlob
      demoBlob [] (by decide) (by decide) (by decide) rfl (by decide) (by decide) (by decide)
      rfl rfl rfl rfl rfl (Or.inl (by decide)),
    (valid_draft_submitted_twice demoSubmitEnv laterSubmitEnv demoDraft
      (refillDraft "Bo Chen" demoBlob "data:image/jpeg;base64,/9k/"
        (submit demoSubmitEnv demoDraft).1) demoBlob demoBlob []
      (by decide) (by decide) (by decide) rfl (by decide) (by decide) (by decide)
      rfl rfl rfl rfl rfl (Or.inl (by decide))).2.2.2⟩

/-! ## Ownership filters -/

/-- C8, as stated, fails: the update of `saveEdit` and the delete of
`deleteEntry` are requests on `registrations` whose filters hold no filter on
`registered_by_email`. -/
theorem update_and_delete_not_owner_filtered :
    (∃ c ∈ (saveEdit demoEditEnv demoEditing).2, ∃ fs,
      c.registrationFilters = some fs ∧ ownerFilter demoEditing.sessionEmail ∉ fs) ∧
    (∃ c ∈ (deleteEntry demoDeleteEnv demoItem.row.id demoItem.row.photo_path demoEditing).2,
      ∃ fs, c.registrationFilters = some fs ∧ ownerFilter demoEditing.sessionEmail ∉ fs) :=
  ⟨⟨updateCall (.num 7) "Ann Lee" "France", by decide, [⟨"id", .num 7⟩], by decide, by decide⟩,
    ⟨deleteCall (.num 7), by decide, [⟨"id", .num 7⟩], by decide, by decide⟩⟩

/-- C8, amended: every select `loadMyRegistrations(email)` issues is on
`registrations` with the one filter `registered_by_email = email`, and in
`saveEdit` and `deleteEntry` that email is the Session Identity; every update
`saveEdit` issues is filtered on `id = editId` only, and every delete
`deleteEntry(id, ..)` issues is filtered on `id = id` only. -/
theorem registration_request_filters (lenv : ListEnv) (eenv : EditEnv) (denv : DeleteEnv)
    (email : String) (id : Scalar) (photo_path : Option String) (s : PageState) :
    (∀ table columns filters order limit single,
      Call.dbSelect table columns filters order limit single
          ∈ (loadMyRegistrations lenv email s).2 →
        table = "registrations" ∧ filters = [ownerFilter email]) ∧
    (∀ table columns filters order limit single,
      Call.dbSelect table columns filters order limit single ∈ (saveEdit eenv s).2 →
        table = "registrations" ∧ filters = [ownerFilter s.sessionEmail]) ∧
    (∀ table columns filters order limit single,
      Call.dbSelect table columns filters order limit single
          ∈ (deleteEntry denv id photo_path s).2 →
        table = "registrations" ∧ filters = [ownerFilter s.sessionEmail]) ∧
    (∀ table payload filters,
      Call.dbUpdate table payload filters ∈ (saveEdit eenv s).2 →
        table = "registrations" ∧ ∃ editId, s.editId = some editId ∧
          filters = [⟨"id", editId⟩]) ∧
    (∀ table filters,
      Call.dbDelete table filters ∈ (deleteEntry denv id photo_path s).2 →
        table = "registrations" ∧ filters = [⟨"id", id⟩]) := by
  refine ⟨?_, ?_, ?_, ?_, ?_⟩
  · intro table columns filters order limit single h
    exact loadMyRegistrations_select lenv email s _ _ _ _ _ _ h
  · intro table columns filters order limit single h
    unfold saveEdit at h
    split at h
    · simp at h
    · split at h
      · simp at h
      · split at h
        · simp [updateCall] at h
        · simp only [List.mem_cons, updateCall] at h
          rcases h with h | h
          · simp at h
          · exact loadMyRegistrations_select _ _ _ _ _ _ _ _ _ h
  · intro table columns filters order limit single h
    unfold deleteEntry at h
    split at h
    · simp at h
    · split at h
      · simp [deleteCall] at h
      · simp only [List.mem_append, List.mem_cons, deleteCall] at h
        rcases h with (h | h) | h
        · simp at h
        · split at h <;> simp at h
        · exact loadMyRegistrations_select _ _ _ _ _ _ _ _ _ h
  · intro table payload filters h
    unfold saveEdit at h
    split at h
    · simp at h
    · rename_i editId hid
      split at h
      · simp at h
      · split at h
        · simp only [List.mem_singleton, updateCall, Call.dbUpdate.injEq] at h
          exact ⟨h.1, editId, hid, h.2.2⟩
        · simp only [List.mem_cons, updateCall] at h
          rcases h with h | h
          · simp only [Call.dbUpdate.injEq] at h
            exact ⟨h.1, editId, hid, h.2.2⟩
          · rcases loadMyRegistrations_calls _ _ _ _ h with h | ⟨p, h⟩
            · simp [listQuery] at h
            · simp at h
  · intro table filters h
    unfold deleteEntry at h
    split at h
    · simp at h
    · split at h
      · simp only [List.mem_cons, deleteCall] at h
        simpa using h
      · simp only [List.mem_append, List.mem_cons, deleteCall] at h
        rcases h with (h | h) | h
        · simpa using h
        · split at h <;> simp at h
        · rcases loadMyRegistrations_calls _ _ _ _ h with h | ⟨p, h⟩
          · simp [listQuery] at h
          · simp at h

theorem registration_request_filters_witness :
    ("registrations" = "registrations" ∧
      [ownerFilter "ann@example.org"] = [ownerFilter "ann@example.org"]) ∧
    ("registrations" = "registrations" ∧
      [ownerFilter "ann@example.org"] = [ownerFilter demoEditing.sessionEmail]) ∧
    ("registrations" = "registrations" ∧
      ∃ editId, demoEditing.editId = some editId ∧
        [(⟨"id", .num 7⟩ : EqFilter)] = [⟨"id", editId⟩]) ∧
    ("registrations" = "registrations" ∧
      [(⟨"id", .num 7⟩ : EqFilter)] = [⟨"id", .num 7⟩]) :=
  ⟨(registration_request_filters emptyListEnv demoEditEnv demoDeleteEnv "ann@example.org"
      (.num 7) none demoEditing).1 "registrations"
      "id, created_at, full_name, country, photo_path" [ownerFilter "ann@example.org"]
      (some ("created_at", false)) (some 200) false (by decide),
    (registration_request_filters emptyListEnv demoEditEnv demoDeleteEnv "ann@example.org"
      (.num 7) none demoEditing).2.1 "registrations"
      "id, created_at, full_name, country, photo_path" [ownerFilter "ann@example.org"]
      (some ("created_at", false)) (some 200) false (by decide),
    (registration_request_filters emptyListEnv demoEditEnv demoDeleteEnv "ann@example.org"
      (.num 7) none demoEditing).2.2.2.1 "registrations"
      [("full_name", "Ann Lee"), ("country", "France")] [⟨"id", .num 7⟩] (by decide),
    (registration_request_filters emptyListEnv demoEditEnv demoDeleteEnv "ann@example.org"
      (.num 7) none demoEditing).2.2.2.2 "registrations" [⟨"id", .num 7⟩] (by decide)⟩

/-! ## The authorization gate -/

/-- C9: for a session email and two allow-lists that differ only in that the
first has no row for the (lower-cased) email and the second has one with
`active = false`, the gate behaves the same in both runs, whatever the
request itself does; when the request does not fail, in both runs it signs
out and then redirects to `/login`, and leaves the whole page state as it
was (no Session Identity, no message, no draft field changed) without
starting a List Sync. -/
theorem gate_inactive_indistinguishable_from_absent (toLowerCase : String → String)
    (raw : String) (pre post : List AllowedRow) (row : AllowedRow) (list : ListEnv)
    (country : String) (s : PageState)
    (hne : toLowerCase raw ≠ "")
    (habsent : ∀ r ∈ pre ++ post, r.email ≠ toLowerCase raw)
    (_hrow : row.email = toLowerCase raw) (hinactive : row.active = false) :
    (∀ failure : Option RemoteError,
      gateEffect toLowerCase
          ⟨some raw, allowedLookup (pre ++ post) failure (toLowerCase raw), list⟩ country s
        = gateEffect toLowerCase
          ⟨some raw, allowedLookup (pre ++ row :: post) failure (toLowerCase raw), list⟩
          country s) ∧
    gateEffect toLowerCase
        ⟨some raw, allowedLookup (pre ++ post) none (toLowerCase raw), list⟩ country s
      = (s, [Call.authGetSession, allowedQuery (toLowerCase raw), Call.authSignOut,
          Call.routerPush "/login"]) ∧
    gateEffect toLowerCase
        ⟨some raw, allowedLookup (pre ++ row :: post) none (toLowerCase raw), list⟩ country s
      = (s, [Call.authGetSession, allowedQuery (toLowerCase raw), Call.authSignOut,
          Call.routerPush "/login"]) ∧
    listQuery (toLowerCase raw) ∉ [Call.authGetSession, allowedQuery (toLowerCase raw),
      Call.authSignOut, Call.routerPush "/login"] ∧
    row ∈ pre ++ row :: post := by
  refine ⟨?_, ?_, ?_, ?_, by simp⟩
  · intro failure
    rw [allowedLookup_insert_inactive pre post row failure _ hinactive]
  · rw [allowedLookup_absent _ _ habsent]
    exact gateEffect_not_allowed toLowerCase raw list country s hne
  · rw [allowedLookup_insert_inactive pre post row none _ hinactive,
      allowedLookup_absent _ _ habsent]
    exact gateEffect_not_allowed toLowerCase raw list country s hne
  · simp [listQuery, allowedQuery]

theorem gate_inactive_indistinguishable_from_absent_witness :
    (∀ failure : Option RemoteError,
      gateEffect asciiToLowerCase
          ⟨some "Ann@Example.org",
            allowedLookup ([⟨"bo@example.org", true, some "Norway"⟩]
              ++ [⟨"cy@example.org", false, none⟩]) failure
              (asciiToLowerCase "Ann@Example.org"), emptyListEnv⟩ "" PageState.initial
        = gateEffect asciiToLowerCase
          ⟨some "Ann@Example.org",
            allowedLookup ([⟨"bo@example.org", true, some "Norway"⟩]
              ++ inactiveAnn :: [⟨"cy@example.org", false, none⟩]) failure
              (asciiToLowerCase "Ann@Example.org"), emptyListEnv⟩ "" PageState.initial) ∧
    gateEffect asciiToLowerCase
        ⟨some "Ann@Example.org",
          allowedLookup ([⟨"bo@example.org", true, some "Norway"⟩]
            ++ [⟨"cy@example.org", false, none⟩]) none
            (asciiToLowerCase "Ann@Example.org"), emptyListEnv⟩ "" PageState.initial
      = (PageState.initial, [Call.authGetSession,
          allowedQuery (asciiToLowerCase "Ann@Example.org"), Call.authSignOut,
          Call.routerPush "/login"]) ∧
    gateEffect asciiToLowerCase
        ⟨some "Ann@Example.org",
          allowedLookup ([⟨"bo@example.org", true, some "Norway"⟩]
            ++ inactiveAnn :: [⟨"cy@example.org", false, none⟩]) none
            (asciiToLowerCase "Ann@Example.org"), emptyListEnv⟩ "" PageState.initial
      = (PageState.initial, [Call.authGetSession,
          allowedQuery (asciiToLowerCase "Ann@Example.org"), Call.authSignOut,
          Call.routerPush "/login"]) ∧
    listQuery (asciiToLowerCase "Ann@Example.org") ∉ [Call.authGetSession,
      allowedQuery (asciiToLowerCase "Ann@Example.org"), Call.authSignOut,
      Call.routerPush "/login"] ∧
    inactiveAnn ∈ [⟨"bo@example.org", true, some "Norway"⟩]
      ++ inactiveAnn :: [⟨"cy@example.org", false, none⟩] :=
  gate_inactive_indistinguishable_from_absent asciiToLowerCase "Ann@Example.org"
    [⟨"bo@example.org", true, some "Norway"⟩] [⟨"cy@example.org", false, none⟩]
    inactiveAnn emptyListEnv "" PageState.initial (by decide) (by decide) (by decide) rfl

/-- C10: the gate follows its state machine. (1) Without a session email it
redirects to `/login`, with no allow-list lookup and no sign-out. (2) When the
lookup answers with an error it sets the message to the error's message, and
neither redirects nor signs out. (3) When the lookup finds no active row it
signs out and then redirects to `/login`. (4) When the lookup finds an active
row there is no redirect and no sign-out, the Session Identity becomes the
lower-cased session email and a List Sync is started for it. Starting from a
page without a Session Identity, the Session Identity is non-empty after the
gate exactly in case (4). The lookup finds no row when the allow-list has no
active row for the email, and finds the row when it has exactly one. -/
theorem gate_follows_state_machine (toLowerCase : String → String) (env : GateEnv)
    (country : String) (s : PageState) :
    ((env.sessionUserEmail = none ∨
        ∃ raw, env.sessionUserEmail = some raw ∧ toLowerCase raw = "") →
      gateEffect toLowerCase env country s
        = (s, [Call.authGetSession, Call.routerPush "/login"])) ∧
    (∀ raw e, env.sessionUserEmail = some raw → toLowerCase raw ≠ "" →
      env.allowed.error = some e →
      gateEffect toLowerCase env country s
        = ({ s with msg := e.message },
            [Call.authGetSession, allowedQuery (toLowerCase raw)])) ∧
    (∀ raw, env.sessionUserEmail = some raw → toLowerCase raw ≠ "" →
      env.allowed.error = none → env.allowed.data = none →
      gateEffect toLowerCase env country s
        = (s, [Call.authGetSession, allowedQuery (toLowerCase raw), Call.authSignOut,
            Call.routerPush "/login"])) ∧
    (∀ raw a, env.sessionUserEmail = some raw → toLowerCase raw ≠ "" →
      env.allowed.error = none → env.allowed.data = some a →
      (gateEffect toLowerCase env country s).1.sessionEmail = toLowerCase raw ∧
      (gateEffect toLowerCase env country s).2
        = [Call.authGetSession, allowedQuery (toLowerCase raw)]
          ++ (loadMyRegistrations env.list (toLowerCase raw) s).2 ∧
      listQuery (toLowerCase raw) ∈ (gateEffect toLowerCase env country s).2 ∧
      Call.authSignOut ∉ (gateEffect toLowerCase env country s).2 ∧
      ∀ path, Call.routerPush path ∉ (gateEffect toLowerCase env country s).2) ∧
    (s.sessionEmail = "" →
      ((gateEffect toLowerCase env country s).1.sessionEmail ≠ "" ↔
        ∃ raw a, env.sessionUserEmail = some raw ∧ toLowerCase raw ≠ "" ∧
          env.allowed.error = none ∧ env.allowed.data = some a)) ∧
    (∀ table email, (∀ r ∈ table, ¬ (r.email = email ∧ r.active = true)) →
      allowedLookup table none email = ⟨none, none⟩) ∧
    (∀ table email a, table.filter (fun r => r.email = email ∧ r.active = true) = [a] →
      allowedLookup table none email = ⟨some a, none⟩ ∧ a.email = email ∧ a.active = true) := by
  refine ⟨?_, ?_, ?_, ?_, ?_, allowedLookup_no_active, allowedLookup_one_active⟩
  · rintro (h | ⟨raw, h, h0⟩)
    · simp [gateEffect, h]
    · simp [gateEffect, h, h0]
  · intro raw e hs hne he
    simp [gateEffect, hs, hne, he]
  · intro raw hs hne he hd
    simp [gateEffect, hs, hne, he, hd]
  · intro raw a hs hne he hd
    obtain ⟨h1, h2⟩ := gateEffect_allowed toLowerCase env country s raw a hs hne he hd
    refine ⟨h1, h2, ?_, ?_, ?_⟩
    · rw [h2]
      simp [listQuery_mem_loadMyRegistrations]
    · rw [h2]
      intro hm
      simp only [List.mem_append, List.mem_cons, List.mem_singleton, allowedQuery] at hm
      rcases hm with (hm | hm | hm) | hm
      · simp at hm
      · simp at hm
      · simp at hm
      · rcases loadMyRegistrations_calls _ _ _ _ hm with h | ⟨p, h⟩
        · simp [listQuery] at h
        · simp at h
    · intro path hm
      rw [h2] at hm
      simp only [List.mem_append, List.mem_cons, List.mem_singleton, allowedQuery] at hm
      rcases hm with (hm | hm | hm) | hm
      · simp at hm
      · simp at hm
      · simp at hm
      · rcases loadMyRegistrations_calls _ _ _ _ hm with h | ⟨p, h⟩
        · simp [listQuery] at h
        · simp at h
  · intro h0
    cases hs : env.sessionUserEmail with
    | none => simp [gateEffect, hs, h0]
    | some raw =>
      by_cases hne : toLowerCase raw = ""
      · simp [gateEffect, hs, hne, h0]
      · cases he : env.allowed.error with
        | some e => simp [gateEffect, hs, hne, he, h0]
        | none =>
          cases hd : env.allowed.data with
          | none => simp [gateEffect, hs, hne, he, hd, h0]
          | some a =>
            have h1 := (gateEffect_allowed toLowerCase env country s raw a hs hne he hd).1
            rw [h1]
            simp [hne]

theorem gate_follows_state_machine_witness :
    gateEffect asciiToLowerCase ⟨none, ⟨none, none⟩, emptyListEnv⟩ "" PageState.initial
        = (PageState.initial, [Call.authGetSession, Call.routerPush "/login"]) ∧
    gateEffect asciiToLowerCase (demoGateEnv ⟨none, some ⟨"Failed to fetch"⟩⟩) ""
        PageState.initial
      = ({ PageState.initial with msg := "Failed to fetch" },
          [Call.authGetSession, allowedQuery (asciiToLowerCase "Ann@Example.org")]) ∧
    gateEffect asciiToLowerCase (demoGateEnv ⟨none, none⟩) "" PageState.initial
      = (PageState.initial,
          [Call.authGetSession, allowedQuery (asciiToLowerCase "Ann@Example.org"),
            Call.authSignOut, Call.routerPush "/login"]) ∧
    ((gateEffect asciiToLowerCase (demoGateEnv ⟨some activeAnn, none⟩) ""
        PageState.initial).1.sessionEmail = asciiToLowerCase "Ann@Example.org" ∧
      (gateEffect asciiToLowerCase (demoGateEnv ⟨some activeAnn, none⟩) ""
        PageState.initial).2
        = [Call.authGetSession, allowedQuery (asciiToLowerCase "Ann@Example.org")]
          ++ (loadMyRegistrations (demoGateEnv ⟨some activeAnn, none⟩).list
            (asciiToLowerCase "Ann@Example.org") PageState.initial).2 ∧
      listQuery (asciiToLowerCase "Ann@Example.org")
        ∈ (gateEffect asciiToLowerCase (demoGateEnv ⟨some activeAnn, none⟩) ""
          PageState.initial).2 ∧
      Call.authSignOut ∉ (gateEffect asciiToLowerCase (demoGateEnv ⟨some activeAnn, none⟩) ""
        PageState.initial).2 ∧
      ∀ path, Call.routerPush path
        ∉ (gateEffect asciiToLowerCase (demoGateEnv ⟨some activeAnn, none⟩) ""
          PageState.initial).2) ∧
    (gateEffect asciiToLowerCase (demoGateEnv ⟨some activeAnn, none⟩) ""
      PageState.initial).1.sessionEmail ≠ "" ∧
    allowedLookup (inactiveAnn :: demoAllowList) none "ann@example.org" = ⟨none, none⟩ ∧
    (allowedLookup (activeAnn :: demoAllowList) none "ann@example.org" = ⟨some activeAnn, none⟩ ∧
      activeAnn.email = "ann@example.org" ∧ activeAnn.active = true) :=
  ⟨(gate_follows_state_machine asciiToLowerCase ⟨none, ⟨none, none⟩, emptyListEnv⟩ ""
      PageState.initial).1 (Or.inl rfl),
    (gate_follows_state_machine asciiToLowerCase (demoGateEnv ⟨none, some ⟨"Failed to fetch"⟩⟩)
      "" PageState.initial).2.1 "Ann@Example.org" ⟨"Failed to fetch"⟩ rfl (by decide) rfl,
    (gate_follows_state_machine asciiToLowerCase (demoGateEnv ⟨none, none⟩) ""
      PageState.initial).2.2.1 "Ann@Example.org" rfl (by decide) rfl rfl,
    (gate_follows_state_machine asciiToLowerCase (demoGateEnv ⟨some activeAnn, none⟩) ""
      PageState.initial).2.2.2.1 "Ann@Example.org" activeAnn rfl (by decide) rfl rfl,
    ((gate_follows_state_machine asciiToLowerCase (demoGateEnv ⟨some activeAnn, none⟩) ""
      PageState.initial).2.2.2.2.1 rfl).mpr
        ⟨"Ann@Example.org", activeAnn, rfl, by decide, rfl, rfl⟩,
    (gate_follows_state_machine asciiToLowerCase (demoGateEnv ⟨none, none⟩) ""
      PageState.initial).2.2.2.2.2.1 (inactiveAnn :: demoAllowList) "ann@example.org"
        (by decide),
    (gate_follows_state_machine asciiToLowerCase (demoGateEnv ⟨none, none⟩) ""
      PageState.initial).2.2.2.2.2.2 (activeAnn :: demoAllowList) "ann@example.org" activeAnn
        (by decide)⟩

/-! ## The default country -/

/-- C11: the gate tests the `country` its closure captured when the effect
was created, not the country of the draft when the lookups complete. On a
freshly mounted page (captured country empty) where the user has typed
`Spain` while the lookups were pending, the gate reaches Allowed with the
default country `France` and overwrites the user's entry. -/
theorem gate_overwrites_typed_country :
    jsTrim (typeCountry "Spain" PageState.initial).country ≠ "" ∧
    (gateEffect asciiToLowerCase (demoGateEnv ⟨some activeAnn, none⟩) PageState.initial.country
      (typeCountry "Spain" PageState.initial)).1.country = "France" ∧
    (gateEffect asciiToLowerCase (demoGateEnv ⟨some activeAnn, none⟩) PageState.initial.country
      (typeCountry "Spain" PageState.initial)).1.sessionEmail = "ann@example.org" := by
  decide

/-! ## List Sync -/

/-- C12: when the base query succeeds with rows `r_1..r_n`,
`loadMyRegistrations` replaces the list with `n` items in row order, item
`i` being row `i` with the view URL of the specification (`null` without a
path, `null` when signing fails, the signed URL otherwise); the refresh ends
with the loading flag down and no message set; changing the answer of one
row's signing changes no other item; and three rows with paths, exactly one
of which fails signing while the two others get a URL, give three items of
which exactly one has no URL. -/
theorem list_sync_items (env : ListEnv) (email : String) (s : PageState)
    (rows : List RegistrationRow) (he : env.select.error = none)
    (hd : env.select.data = some rows) :
    (loadMyRegistrations env email s).1.items.length = rows.length ∧
    (loadMyRegistrations env email s).1.items.map ListItem.row = rows ∧
    (∀ i, (loadMyRegistrations env email s).1.items[i]?
      = rows[i]?.map (fun r => (⟨r, expectedPhotoUrl env i r⟩ : ListItem))) ∧
    (loadMyRegistrations env email s).1.msg = s.msg ∧
    (loadMyRegistrations env email s).1.loadingList = false ∧
    (∀ (other : ListEnv) (j : Nat), other.select = env.select →
      (∀ i p, i ≠ j → other.sign i p = env.sign i p) →
      ∀ i, i ≠ j → (loadMyRegistrations other email s).1.items[i]?
        = (loadMyRegistrations env email s).1.items[i]?) ∧
    (∀ (r0 r1 r2 : RegistrationRow) (p0 p1 p2 : String) (j : Nat),
      rows = [r0, r1, r2] →
      r0.photo_path = some p0 → r1.photo_path = some p1 → r2.photo_path = some p2 →
      p0 ≠ "" → p1 ≠ "" → p2 ≠ "" → j < 3 →
      (∀ i, i < 3 → ((env.sign i ([p0, p1, p2].getD i "")).error ≠ none ↔ i = j)) →
      (∀ i, i < 3 → i ≠ j → (env.sign i ([p0, p1, p2].getD i "")).data ≠ none) →
      (loadMyRegistrations env email s).1.items.length = 3 ∧
      ((loadMyRegistrations env email s).1.items.filter
        (fun it => it.photo_url.isNone)).length = 1 ∧
      ((loadMyRegistrations env email s).1.items.filter
        (fun it => it.photo_url.isSome)).length = 2) := by
  have key := loadMyRegistrations_ok env email s rows he hd
  refine ⟨?_, ?_, ?_, ?_, ?_, ?_, ?_⟩
  · rw [key]
    exact signAll_length env rows 0
  · rw [key]
    apply List.ext_getElem?
    intro i
    simp only [List.getElem?_map]
    rw [signAll_getElem?]
    cases rows[i]? <;> rfl
  · intro i
    rw [key]
    simpa using signAll_getElem? env rows 0 i
  · rw [key]
  · rw [key]
  · intro other j hsel hsign i hij
    rw [key, loadMyRegistrations_ok other email s rows (by rw [hsel]; exact he)
      (by rw [hsel]; exact hd)]
    show (signAll other 0 rows).1[i]? = (signAll env 0 rows).1[i]?
    rw [signAll_getElem?, signAll_getElem?]
    cases rows[i]? with
    | none => rfl
    | some r =>
      simp only [Option.map_some', Nat.zero_add, expectedPhotoUrl]
      cases r.photo_path with
      | none => rfl
      | some p => simp only [hsign i p hij]
  · intro r0 r1 r2 p0 p1 p2 j hrows h0 h1 h2 n0 n1 n2 hj hfail hok
    subst hrows
    rw [key]
    have f0 := hfail 0 (by omega)
    have f1 := hfail 1 (by omega)
    have f2 := hfail 2 (by omega)
    have k0 := hok 0 (by omega)
    have k1 := hok 1 (by omega)
    have k2 := hok 2 (by omega)
    simp only [List.getD_cons_zero, List.getD_cons_succ] at f0 f1 f2 k0 k1 k2
    have e0 : (signAll env 0 [r0, r1, r2]).1
        = [⟨r0, expectedPhotoUrl env 0 r0⟩, ⟨r1, expectedPhotoUrl env 1 r1⟩,
            ⟨r2, expectedPhotoUrl env 2 r2⟩] := by
      simp [signAll, signRow_item]
    rw [e0]
    simp only [expectedPhotoUrl, h0, h1, h2, n0, n1, n2, if_false]
    obtain rfl | rfl | rfl : j = 0 ∨ j = 1 ∨ j = 2 := by omega
    · have a0 := f0.mpr rfl
      have a1 : (env.sign 1 p1).error = none := by
        by_contra h; exact absurd (f1.mp h) (by decide)
      have a2 : (env.sign 2 p2).error = none := by
        by_contra h; exact absurd (f2.mp h) (by decide)
      obtain ⟨u, hu⟩ := Option.ne_none_iff_exists'.mp (k1 (by decide))
      obtain ⟨v, hv⟩ := Option.ne_none_iff_exists'.mp (k2 (by decide))
      simp [a0, a1, a2, hu, hv, List.filter]
    · have a1 := f1.mpr rfl
      have a0 : (env.sign 0 p0).error = none := by
        by_contra h; exact absurd (f0.mp h) (by decide)
      have a2 : (env.sign 2 p2).error = none := by
        by_contra h; exact absurd (f2.mp h) (by decide)
      obtain ⟨u, hu⟩ := Option.ne_none_iff_exists'.mp (k0 (by decide))
      obtain ⟨v, hv⟩ := Option.ne_none_iff_exists'.mp (k2 (by decide))
      simp [a0, a1, a2, hu, hv, List.filter]
    · have a2 := f2.mpr rfl
      have a0 : (env.sign 0 p0).error = none := by
        by_contra h; exact absurd (f0.mp h) (by decide)
      have a1 : (env.sign 1 p1).error = none := by
        by_contra h; exact absurd (f1.mp h) (by decide)
      obtain ⟨u, hu⟩ := Option.ne_none_iff_exists'.mp (k0 (by decide))
      obtain ⟨v, hv⟩ := Option.ne_none_iff_exists'.mp (k1 (by decide))
      simp [a0, a1, a2, hu, hv, List.filter]

theorem list_sync_items_witness :
    (loadMyRegistrations threeRowsEnv "ann@example.org" PageState.initial).1.items.length = 3 ∧
    ((loadMyRegistrations threeRowsEnv "ann@example.org" PageState.initial).1.items.filter
      (fun it => it.photo_url.isNone)).length = 1 ∧
    ((loadMyRegistrations threeRowsEnv "ann@example.org" PageState.initial).1.items.filter
      (fun it => it.photo_url.isSome)).length = 2 :=
  (list_sync_items threeRowsEnv "ann@example.org" PageState.initial threeRows rfl rfl).2.2.2.2.2.2
    ⟨.num 3, "2024-05-03T10:00:00Z", some "Cy Diaz", some "Peru", some "ann@example.org/3.jpg"⟩
    ⟨.num 2, "2024-05-02T10:00:00Z", some "Bo Chen", some "Norway", some "ann@example.org/2.jpg"⟩
    ⟨.num 1, "2024-05-01T10:00:00Z", some "Ann Lee", some "France", some "ann@example.org/1.jpg"⟩
    "ann@example.org/3.jpg" "ann@example.org/2.jpg" "ann@example.org/1.jpg" 1
    rfl rfl rfl rfl (by decide) (by decide) (by decide) (by decide) (by decide) (by decide)

/-- C13: when the base query of `loadMyRegistrations` answers with an error,
whatever the list was, the message becomes the error's message, the only
call issued is the base query (no signed URL is requested), the list is what
it was before the refresh, and the loading flag is down. -/
theorem list_sync_error_keeps_list (env : ListEnv) (email : String) (s : PageState)
    (e : RemoteError) (he : env.select.error = some e) :
    (loadMyRegistrations env email s).1.msg = e.message ∧
    (loadMyRegistrations env email s).2 = [listQuery email] ∧
    (∀ path seconds, Call.storageCreateSignedUrl "photos" path seconds
      ∉ (loadMyRegistrations env email s).2) ∧
    (loadMyRegistrations env email s).1.items = s.items ∧
    (loadMyRegistrations env email s).1.loadingList = false ∧
    (loadMyRegistrations env email s).1
      = { s with msg := e.message, loadingList := false } := by
  have key : loadMyRegistrations env email s
      = ({ s with msg := e.message, loadingList := false }, [listQuery email]) := by
    simp [loadMyRegistrations, he]
  simp [key, listQuery]

theorem list_sync_error_keeps_list_witness :
    (loadMyRegistrations failingListEnv "ann@example.org"
      { PageState.initial with items := [demoItem] }).1.msg = "Failed to fetch" ∧
    (loadMyRegistrations failingListEnv "ann@example.org"
      { PageState.initial with items := [demoItem] }).2 = [listQuery "ann@example.org"] ∧
    (∀ path seconds, Call.storageCreateSignedUrl "photos" path seconds
      ∉ (loadMyRegistrations failingListEnv "ann@example.org"
        { PageState.initial with items := [demoItem] }).2) ∧
    (loadMyRegistrations failingListEnv "ann@example.org"
      { PageState.initial with items := [demoItem] }).1.items = [demoItem] ∧
    (loadMyRegistrations failingListEnv "ann@example.org"
      { PageState.initial with items := [demoItem] }).1.loadingList = false ∧
    (loadMyRegistrations failingListEnv "ann@example.org"
      { PageState.initial with items := [demoItem] }).1
      = { { PageState.initial with items := [demoItem] } with
          msg := "Failed to fetch", loadingList := false } :=
  list_sync_error_keeps_list failingListEnv "ann@example.org"
    { PageState.initial with items := [demoItem] } ⟨"Failed to fetch"⟩ rfl

/-! ## Edit and delete -/

/-- C14: with the edit form open on a set id, `saveEdit` issues exactly one
update, on the row with that id, whose payload is the trimmed entered name as
`full_name` and the trimmed entered country as `country` and nothing else;
when the update succeeds the form is closed and a List Sync of the Session
Identity runs; when it fails the message is the error's message, the form is
still open with the entered name and country, and the update is the only
call. `openEdit(r)` fills the form with the name and the country of `r`. -/
theorem save_edit_update_then_resync (env : EditEnv) (s : PageState) (id : Scalar)
    (hid : s.editId = some id) (hset : id.truthy = true) (hopen : s.editOpen = true) :
    (saveEdit env s).2.filter Call.isUpdate
      = [Call.dbUpdate "registrations"
          [("full_name", jsTrim s.editName), ("country", jsTrim s.editCountry)]
          [⟨"id", id⟩]] ∧
    (env.error = none →
      (saveEdit env s).1.editOpen = false ∧
      listQuery s.sessionEmail ∈ (saveEdit env s).2) ∧
    (∀ e, env.error = some e →
      (saveEdit env s).1.msg = e.message ∧
      (saveEdit env s).1.editOpen = true ∧
      (saveEdit env s).1.editId = some id ∧
      (saveEdit env s).1.editName = s.editName ∧
      (saveEdit env s).1.editCountry = s.editCountry ∧
      (saveEdit env s).2 = [updateCall id s.editName s.editCountry]) ∧
    (∀ (r : ListItem) (s0 : PageState),
      (openEdit r s0).editName = r.row.full_name.getD "" ∧
      (openEdit r s0).editCountry = r.row.country.getD "" ∧
      (openEdit r s0).editId = some r.row.id ∧
      (openEdit r s0).editOpen = true) := by
  refine ⟨?_, ?_, ?_, fun r s0 => ⟨rfl, rfl, rfl, rfl⟩⟩
  · cases he : env.error with
    | some e => simp [saveEdit, hid, hset, he, updateCall, Call.isUpdate]
    | none =>
      have key : (saveEdit env s).2
          = updateCall id s.editName s.editCountry
            :: (loadMyRegistrations env.list s.sessionEmail
                { s with msg := "", editSaving := false, editOpen := false }).2 := by
        simp [saveEdit, hid, hset, he]
      rw [key, List.filter_cons_of_pos (by rfl),
        loadMyRegistrations_filter env.list s.sessionEmail _ Call.isUpdate rfl (fun _ => rfl)]
      rfl
  · intro he
    have key : saveEdit env s
        = ((loadMyRegistrations env.list s.sessionEmail
              { s with msg := "", editSaving := false, editOpen := false }).1,
            updateCall id s.editName s.editCountry
              :: (loadMyRegistrations env.list s.sessionEmail
                { s with msg := "", editSaving := false, editOpen := false }).2) := by
      simp [saveEdit, hid, hset, he]
    rw [key]
    constructor
    · show (loadMyRegistrations _ _ _).1.editOpen = false
      rw [loadMyRegistrations_state]
    · exact List.mem_cons_of_mem _ (listQuery_mem_loadMyRegistrations _ _ _)
  · intro e he
    have key : saveEdit env s
        = ({ s with msg := e.message, editSaving := false },
            [updateCall id s.editName s.editCountry]) := by
      simp [saveEdit, hid, hset, he]
    rw [key]
    exact ⟨rfl, hopen, hid, rfl, rfl, rfl⟩

theorem save_edit_update_then_resync_witness :
    ((saveEdit demoEditEnv demoEditing).1.editOpen = false ∧
      listQuery demoEditing.sessionEmail ∈ (saveEdit demoEditEnv demoEditing).2) ∧
    ((saveEdit editFailsEnv demoEditing).1.msg
        = "permission denied for table registrations" ∧
      (saveEdit editFailsEnv demoEditing).1.editOpen = true ∧
      (saveEdit editFailsEnv demoEditing).1.editId = some (.num 7) ∧
      (saveEdit editFailsEnv demoEditing).1.editName = demoEditing.editName ∧
      (saveEdit editFailsEnv demoEditing).1.editCountry = demoEditing.editCountry ∧
      (saveEdit editFailsEnv demoEditing).2
        = [updateCall (.num 7) demoEditing.editName demoEditing.editCountry]) :=
  ⟨(save_edit_update_then_resync demoEditEnv demoEditing (.num 7) rfl rfl rfl).2.1 rfl,
    (save_edit_update_then_resync editFailsEnv demoEditing (.num 7) rfl rfl rfl).2.2.1
      ⟨"permission denied for table registrations"⟩ rfl⟩

/-- C15: `deleteEntry(id, photo_path)` asks for confirmation first; when the
user declines it issues no remote call and changes no state. When the user
confirms, the row delete comes first; when it fails the message is its error
and nothing else is issued; when it succeeds the storage removal is requested
exactly when `photo_path` is non-empty, then a List Sync of the Session
Identity runs, and neither the calls nor the resulting state depend on the
answer of the storage removal, so a failed removal sets no message. When that
List Sync succeeds with rows of the table the delete left, no item of the
list carries the deleted id. -/
theorem delete_entry_row_first_then_resync (env : DeleteEnv) (id : Scalar)
    (photo_path : Option String) (s : PageState) :
    (env.ok = false →
      deleteEntry env id photo_path s = (s, [Call.windowConfirm "Delete this registration?"]) ∧
      ∀ c ∈ (deleteEntry env id photo_path s).2, c.isRemote = false) ∧
    (env.ok = true → ∀ e, env.error = some e →
      deleteEntry env id photo_path s
        = ({ s with msg := e.message },
            [Call.windowConfirm "Delete this registration?", deleteCall id])) ∧
    (env.ok = true → env.error = none →
      (deleteEntry env id photo_path s).2
        = [Call.windowConfirm "Delete this registration?", deleteCall id]
          ++ (if truthyStr photo_path then [Call.storageRemove "photos" [photo_path.getD ""]]
              else [])
          ++ (loadMyRegistrations env.list s.sessionEmail s).2 ∧
      listQuery s.sessionEmail ∈ (deleteEntry env id photo_path s).2 ∧
      (deleteEntry env id photo_path s).1
        = (loadMyRegistrations env.list s.sessionEmail { s with msg := "" }).1) ∧
    (∀ removeErr : Option RemoteError,
      deleteEntry { env with removeErr := removeErr } id photo_path s
        = deleteEntry env id photo_path s) ∧
    (env.ok = true → env.error = none → env.list.select.error = none →
      (deleteEntry env id photo_path s).1.msg = "") ∧
    (env.ok = true → env.error = none → env.list.select.error = none →
      ∀ (table : List StoredRegistration) (rows : List RegistrationRow),
        env.list.select.data = some rows →
        (∀ r ∈ rows, ∃ st ∈ deleteById id table, st.row = r) →
        ∀ it ∈ (deleteEntry env id photo_path s).1.items, it.row.id ≠ id) := by
  have hsucc : env.ok = true → env.error = none →
      deleteEntry env id photo_path s
        = ((loadMyRegistrations env.list s.sessionEmail { s with msg := "" }).1,
            [Call.windowConfirm "Delete this registration?", deleteCall id]
              ++ (if truthyStr photo_path
                    then [Call.storageRemove "photos" [photo_path.getD ""]] else [])
              ++ (loadMyRegistrations env.list s.sessionEmail { s with msg := "" }).2) := by
    intro hok he
    simp [deleteEntry, hok, he]
  refine ⟨?_, ?_, ?_, ?_, ?_, ?_⟩
  · intro hok
    have key : deleteEntry env id photo_path s
        = (s, [Call.windowConfirm "Delete this registration?"]) := by
      simp [deleteEntry, hok]
    rw [key]
    exact ⟨rfl, by simp [Call.isRemote]⟩
  · intro hok e he
    simp [deleteEntry, hok, he]
  · intro hok he
    rw [hsucc hok he]
    refine ⟨?_, ?_, rfl⟩
    · show _ ++ _ ++ (loadMyRegistrations _ _ _).2 = _
      rw [loadMyRegistrations_calls_indep env.list s.sessionEmail _ s]
    · exact List.mem_append_right _ (listQuery_mem_loadMyRegistrations _ _ _)
  · intro removeErr
    rfl
  · intro hok he hl
    rw [hsucc hok he]
    show (loadMyRegistrations _ _ _).1.msg = ""
    simp [loadMyRegistrations, hl]
  · intro hok he hl table rows hd hrows it hit
    rw [hsucc hok he] at hit
    have key := loadMyRegistrations_ok env.list s.sessionEmail { s with msg := "" } rows hl hd
    rw [key] at hit
    have hrow : it.row ∈ rows := by
      have hm := List.mem_map_of_mem ListItem.row hit
      simpa [signAll_rows] using hm
    obtain ⟨st, hst, heq⟩ := hrows it.row hrow
    have hne := (List.mem_filter.mp hst).2
    rw [← heq]
    simpa using hne

theorem delete_entry_row_first_then_resync_witness :
    (deleteEntry { demoDeleteEnv with ok := false } (.num 7) demoItem.row.photo_path demoEditing
        = (demoEditing, [Call.windowConfirm "Delete this registration?"]) ∧
      ∀ c ∈ (deleteEntry { demoDeleteEnv with ok := false } (.num 7) demoItem.row.photo_path
        demoEditing).2, c.isRemote = false) ∧
    deleteEntry { demoDeleteEnv with error := some ⟨"Failed to fetch"⟩ } (.num 7)
        demoItem.row.photo_path demoEditing
      = ({ demoEditing with msg := "Failed to fetch" },
          [Call.windowConfirm "Delete this registration?", deleteCall (.num 7)]) ∧
    (deleteEntry removalFailsEnv (.num 7) demoItem.row.photo_path demoEditing).1.msg = "" ∧
    (∀ it ∈ (deleteEntry removalFailsEnv (.num 7) demoItem.row.photo_path demoEditing).1.items,
      it.row.id ≠ .num 7) ∧
    listQuery demoEditing.sessionEmail
      ∈ (deleteEntry removalFailsEnv (.num 7) demoItem.row.photo_path demoEditing).2 :=
  ⟨(delete_entry_row_first_then_resync { demoDeleteEnv with ok := false } (.num 7)
      demoItem.row.photo_path demoEditing).1 rfl,
    (delete_entry_row_first_then_resync { demoDeleteEnv with error := some ⟨"Failed to fetch"⟩ }
      (.num 7) demoItem.row.photo_path demoEditing).2.1 rfl ⟨"Failed to fetch"⟩ rfl,
    (delete_entry_row_first_then_resync removalFailsEnv (.num 7) demoItem.row.photo_path
      demoEditing).2.2.2.2.1 rfl rfl rfl,
    (delete_entry_row_first_then_resync removalFailsEnv (.num 7) demoItem.row.photo_path
      demoEditing).2.2.2.2.2 rfl rfl rfl demoTable
      ((deleteById (.num 7) demoTable).map StoredRegistration.row) rfl
      (fun r hr => by
        obtain ⟨st, hst, h⟩ := List.mem_map.mp hr
        exact ⟨st, hst, h⟩),
    ((delete_entry_row_first_then_resync removalFailsEnv (.num 7) demoItem.row.photo_path
      demoEditing).2.2.1 rfl rfl).2.1⟩

/-! ## The crop engine -/

/-- C16: when the source image fails to load, `getCroppedBlob` rejects and
`applyCrop`, which awaits it without a handler, rejects too: the photo blob
and the preview are kept, but the message is the empty string set at the
start, so nothing is reported. When the encoder has no data, `applyCrop`
resolves, keeps the photo and reports `Could not crop image.`. -/
theorem apply_crop_load_failure_unreported :
    truthyStr staleCropPage.rawImageSrc = true ∧
    staleCropPage.croppedAreaPixels ≠ none ∧
    getCroppedBlob demoCropEnv brokenImageSrc ⟨10, 20, 200, 200⟩ = none ∧
    (applyCrop demoCropEnv staleCropPage).2 = Completion.rejected ∧
    (applyCrop demoCropEnv staleCropPage).1.msg = "" ∧
    (applyCrop demoCropEnv staleCropPage).1.photoBlob = staleCropPage.photoBlob ∧
    (applyCrop demoCropEnv staleCropPage).1.photoPreview = staleCropPage.photoPreview ∧
    (applyCrop noDataCropEnv readyCropPage).2 = Completion.resolved ∧
    (applyCrop noDataCropEnv readyCropPage).1.msg = "Could not crop image." ∧
    (applyCrop noDataCropEnv readyCropPage).1.photoBlob = readyCropPage.photoBlob ∧
    (applyCrop noDataCropEnv readyCropPage).1.photoPreview = readyCropPage.photoPreview := by
  decide

/-! ## Required fields -/

/-- C17: `saveEdit` trims the entered name and country and writes them
without checking that they are non-empty: with the edit form open on a row
and the name replaced by blanks, the update it issues carries the empty
string as `full_name`. -/
theorem save_edit_writes_empty_name :
    blankNameEdit.editId = some (.num 7) ∧
    (saveEdit demoEditEnv blankNameEdit).2.filter Call.isUpdate
      = [Call.dbUpdate "registrations" [("full_name", ""), ("country", "France")]
          [⟨"id", .num 7⟩]] ∧
    jsTrim "" = "" ∧
    (submit demoSubmitEnv { demoDraft with fullName := "  " }).2 = [] := by
  decide

/-- C18: when the image loads, `getCroppedBlob` builds a canvas of the width
and height of the crop rectangle, draws into it the source region
`(x, y, width, height)` onto `(0, 0, width, height)` (same size on both
sides, so no scaling), and encodes the blob and the preview from that one
canvas as `image/jpeg` at quality `0.9`. For a rectangle with
`width = height = n` the canvas is `n` by `n`, and so is the encoded blob
for every encoder that gives its output the size of the canvas. -/
theorem cropped_canvas_matches_rectangle (env : CropEnv) (imageSrc : String)
    (r : CropArea) (hload : env.imageLoads imageSrc = true) :
    ∃ canvas : Canvas,
      canvas.width = r.width ∧ canvas.height = r.height ∧
      canvas.drawn = [⟨imageSrc, r.x, r.y, r.width, r.height, 0, 0, r.width, r.height⟩] ∧
      (∀ d ∈ canvas.drawn, d.sw = d.dw ∧ d.sh = d.dh) ∧
      getCroppedBlob env imageSrc r
        = some (env.toBlob canvas "image/jpeg" 0.9, env.toDataURL canvas "image/jpeg" 0.9) ∧
      (∀ n, r.width = n → r.height = n →
        canvas.width = n ∧ canvas.height = n ∧
        ∀ pixelSize : Blob → Nat × Nat,
          (∀ c type quality b, env.toBlob c type quality = some b →
            pixelSize b = (c.width, c.height)) →
          ∀ blob preview, getCroppedBlob env imageSrc r = some (some blob, preview) →
            pixelSize blob = (n, n)) := by
  have key : getCroppedBlob env imageSrc r
      = some (env.toBlob (cropCanvas imageSrc r) "image/jpeg" 0.9,
          env.toDataURL (cropCanvas imageSrc r) "image/jpeg" 0.9) := by
    simp [getCroppedBlob, hload]
  refine ⟨cropCanvas imageSrc r, rfl, rfl, rfl, ?_, key, ?_⟩
  · intro d hd
    simp only [cropCanvas, List.mem_singleton] at hd
    subst hd
    exact ⟨rfl, rfl⟩
  · intro n hw hh
    refine ⟨hw, hh, ?_⟩
    intro pixelSize hsize blob preview hres
    rw [key] at hres
    simp only [Option.some.injEq, Prod.mk.injEq] at hres
    have := hsize _ _ _ _ hres.1
    rw [this]
    show (r.width, r.height) = (n, n)
    rw [hw, hh]

theorem cropped_canvas_matches_rectangle_witness :
    ∃ canvas : Canvas,
      canvas.width = 200 ∧ canvas.height = 200 ∧
      canvas.drawn = [⟨goodImageSrc, 10, 20, 200, 200, 0, 0, 200, 200⟩] ∧
      (∀ d ∈ canvas.drawn, d.sw = d.dw ∧ d.sh = d.dh) ∧
      getCroppedBlob demoCropEnv goodImageSrc ⟨10, 20, 200, 200⟩
        = some (demoCropEnv.toBlob canvas "image/jpeg" 0.9,
            demoCropEnv.toDataURL canvas "image/jpeg" 0.9) ∧
      (∀ n, 200 = n → 200 = n →
        canvas.width = n ∧ canvas.height = n ∧
        ∀ pixelSize : Blob → Nat × Nat,
          (∀ c type quality b, demoCropEnv.toBlob c type quality = some b →
            pixelSize b = (c.width, c.height)) →
          ∀ blob preview,
            getCroppedBlob demoCropEnv goodImageSrc ⟨10, 20, 200, 200⟩
              = some (some blob, preview) →
            pixelSize blob = (n, n)) :=
  cropped_canvas_matches_rectangle demoCropEnv goodImageSrc ⟨10, 20, 200, 200⟩ (by decide)

/-! ## The storage key -/

/-- C19: for a fixed owner email the storage key of `submit` is injective in
the timestamp and the suffix: the rendering `0.` followed by a suffix gives
the key `email/timestamp-suffix.jpg` with that suffix, two such keys whose
timestamps or suffixes differ are different, and whatever the renderings two
equal keys have the same timestamp and the same suffix. -/
theorem storage_key_injective (email : String) (t1 t2 : Nat) (x1 x2 : String) :
    jsSlice2 ("0." ++ x1) = x1 ∧
    filePath email t1 ("0." ++ x1)
      = email ++ "/" ++ toString t1 ++ "-" ++ x1 ++ ".jpg" ∧
    ((t1 ≠ t2 ∨ x1 ≠ x2) →
      filePath email t1 ("0." ++ x1) ≠ filePath email t2 ("0." ++ x2)) ∧
    (∀ r1 r2 : String, filePath email t1 r1 = filePath email t2 r2 →
      t1 = t2 ∧ jsSlice2 r1 = jsSlice2 r2) := by
  have hs : ∀ x : String, jsSlice2 ("0." ++ x) = x := by
    intro x
    apply String.ext
    simp [jsSlice2, String.data_append]
  refine ⟨hs x1, ?_, ?_, ?_⟩
  · simp [filePath, fileName, hs, String.append_assoc]
  · intro hne heq
    have h := (filePath_eq_iff email t1 t2 _ _).mp heq
    rw [hs, hs] at h
    rcases hne with hne | hne
    · exact hne h.1
    · exact hne h.2
  · intro r1 r2 heq
    exact (filePath_eq_iff email t1 t2 r1 r2).mp heq

theorem storage_key_injective_witness :
    filePath "ann@example.org" 1700000000000 ("0." ++ "8f3a")
      ≠ filePath "ann@example.org" 1700000000000 ("0." ++ "") :=
  (storage_key_injective "ann@example.org" 1700000000000 1700000000000 "8f3a" "").2.2.1
    (Or.inr (by decide))

end BadgeRegistration
